import Mathlib

/-!
# Verification of the Blinkr loan-dashboard analytics core

Shallow embedding of `dashboard/views.py`: Python dictionary values are
modelled by the inductive type `Value` (strings as `List Char`), Python
`Decimal`/`float` arithmetic by exact rationals `ℚ`, raised exceptions by
`Except Unit`.  Every definition is translated from the source file; the one
exception (`variantA_spec`, marked in its doc comment) follows the words of
the specification, because no corresponding code exists.
-/

namespace Blinkr

/-- Python strings are modelled as lists of characters. -/
abbrev Str := List Char

/-!
Kernel-computable arithmetic on `ℚ`.  The library's `Rat.add`, `Rat.sub`,
`Rat.mul` and `Rat.inv` are `@[irreducible]`, so closed theorems about
concrete record lists could not be settled by `decide` through them.  The
following operations go through `mkRat` (which reduces) and are proved equal
to the field operations below, so abstract reasoning can still use `+`,
`-`, `*`, `/`.
-/

/-- Kernel-computable addition on `ℚ` (equal to `+` by `qadd_eq`). -/
def qadd (a b : ℚ) : ℚ := mkRat (a.num * b.den + b.num * a.den) (a.den * b.den)

/-- Kernel-computable subtraction on `ℚ` (equal to `-` by `qsub_eq`). -/
def qsub (a b : ℚ) : ℚ := mkRat (a.num * b.den - b.num * a.den) (a.den * b.den)

/-- Kernel-computable multiplication on `ℚ` (equal to `*` by `qmul_eq`). -/
def qmul (a b : ℚ) : ℚ := mkRat (a.num * b.num) (a.den * b.den)

/-- Kernel-computable division on `ℚ` (equal to `/` by `qdiv_eq`;
division by zero yields zero, as in Mathlib). -/
def qdiv (a b : ℚ) : ℚ :=
  mkRat (a.num * b.den * (if b.num < 0 then -1 else 1)) (a.den * b.num.natAbs)

/-- Kernel-computable sum of a list of rationals (equal to `List.sum` by
`sumQ_eq`). -/
def sumQ (l : List ℚ) : ℚ := l.foldr qadd 0


/-- ASCII/latin whitespace as stripped by Python `str.strip()`. -/
def isPySpace (c : Char) : Bool :=
  c = ' ' || c = '\t' || c = '\n' || c = '\r'

/-- `str.strip()`: drop leading and trailing whitespace. -/
def pyStrip (s : Str) : Str :=
  ((s.dropWhile isPySpace).reverse.dropWhile isPySpace).reverse

/-- `str.lower()` (ASCII case folding, as used by the source on city names). -/
def pyLower (s : Str) : Str := s.map Char.toLower

/-- `str.upper()`. -/
def pyUpper (s : Str) : Str := s.map Char.toUpper

/-- `needle == hay[:len(needle)]` : list-prefix test. -/
def strStarts : Str → Str → Bool
  | [], _ => true
  | _ :: _, [] => false
  | a :: as, b :: bs => a = b && strStarts as bs

/-- Python `needle in hay`: contiguous-substring test. -/
def strContains (hay needle : Str) : Bool :=
  match hay with
  | [] => needle.isEmpty
  | _ :: t => strStarts needle hay || strContains t needle

instance {ε α : Type} [DecidableEq ε] [DecidableEq α] : DecidableEq (Except ε α) :=
  fun a b =>
    match a, b with
    | .error e, .error f =>
      match decEq e f with
      | isTrue h => isTrue (congrArg Except.error h)
      | isFalse h => isFalse fun hh => h (Except.error.inj hh)
    | .ok x, .ok y =>
      match decEq x y with
      | isTrue h => isTrue (congrArg Except.ok h)
      | isFalse h => isFalse fun hh => h (Except.ok.inj hh)
    | .error _, .ok _ => isFalse fun hh => Except.noConfusion hh
    | .ok _, .error _ => isFalse fun hh => Except.noConfusion hh

/-- A scalar value of a JSON-decoded Python dictionary.  `missing` marks an
absent key (so that `dict.get` with a default can be modelled); `none` is the
Python value `None`. -/
inductive Value where
  | missing : Value
  | none : Value
  | bool : Bool → Value
  | int : ℤ → Value
  | rat : ℚ → Value
  | str : Str → Value
deriving DecidableEq, Repr

/-- `d.get(key, default)`: a missing key yields the default. -/
def pyGet (v : Value) (d : Value) : Value :=
  if v = .missing then d else v

/-- `d.get(key)`: a missing key yields `None`. -/
def pyGetNone (v : Value) : Value := pyGet v .none

/-- Python truthiness of a scalar value. -/
def pyTruthy : Value → Bool
  | .missing => false
  | .none => false
  | .bool b => b
  | .int n => n ≠ 0
  | .rat q => q ≠ 0
  | .str s => ¬ s.isEmpty

/-- `a or b` on values: `a` when truthy, else `b`. -/
def pyOr (a b : Value) : Value := if pyTruthy a then a else b

/-- `value == "literal"`: only a string compares equal to a string. -/
def valueEqStr (v : Value) (s : Str) : Bool := v = .str s

/-- `value == True` / `value == False` (Python compares `1 == True`). -/
def valueEqBool (v : Value) (b : Bool) : Bool :=
  match v with
  | .bool b' => b' = b
  | .int n => n = (if b then 1 else 0)
  | .rat q => q = (if b then 1 else 0)
  | _ => false

/-- The character of a decimal digit. -/
def digitChar (d : ℕ) : Char := Char.ofNat (48 + d)

/-- Fuel-driven digit rendering (most significant first). -/
def natDigitsCore : ℕ → ℕ → Str → Str
  | 0, _, acc => acc
  | f + 1, n, acc =>
      if n < 10 then digitChar n :: acc
      else natDigitsCore f (n / 10) (digitChar (n % 10) :: acc)

/-- Decimal digits of a natural number (for `str()` of integers). -/
def natDigits (n : ℕ) : Str := natDigitsCore (n + 1) n []

/-- Python `str(value)` for the scalar values of the model.  A rational is
rendered as `num/den`; the source only ever applies `str` to a number in
order to re-parse it (`Decimal(str(x))`) or to search/lower-case it, and the
rendering of a non-integral rational never collides with a numeric keyword,
so this rendering is adequate for the model. -/
def pyStr : Value → Str
  | .missing => "None".toList
  | .none => "None".toList
  | .bool b => (if b then "True" else "False").toList
  | .int n => (if n < 0 then '-' :: natDigits n.natAbs else natDigits n.natAbs)
  | .rat q =>
      if q.den = 1 then
        (if q.num < 0 then '-' :: natDigits q.num.natAbs else natDigits q.num.natAbs)
      else
        (if q.num < 0 then '-' :: natDigits q.num.natAbs else natDigits q.num.natAbs)
          ++ '/' :: natDigits q.den
  | .str s => s

/-- Numeric value of a string of decimal digits. -/
def digitsVal (s : Str) : ℕ :=
  s.foldl (fun n c => 10 * n + (c.toNat - '0'.toNat)) 0

/-- Parser for the finite decimal-numeric-string grammar accepted by Python's
`Decimal` constructor: optional surrounding whitespace, optional sign, a
coefficient `digits [. digits]` or `. digits`, optional exponent
`e|E [sign] digits`.  Non-finite specials (`Infinity`, `NaN`) and underscore
separators are outside the model. -/
def parseDec (s : Str) : Option ℚ :=
  let t := pyStrip s
  let (sgn, t) :=
    match t with
    | '+' :: r => ((1 : ℤ), r)
    | '-' :: r => ((-1 : ℤ), r)
    | r => ((1 : ℤ), r)
  let ipart := t.takeWhile Char.isDigit
  let t := t.dropWhile Char.isDigit
  let (fpart, t) :=
    match t with
    | '.' :: r => (r.takeWhile Char.isDigit, r.dropWhile Char.isDigit)
    | r => ([], r)
  if ipart.isEmpty && fpart.isEmpty then Option.none
  else
    let coeff : ℚ := mkRat (sgn * (digitsVal (ipart ++ fpart) : ℤ)) (10 ^ fpart.length)
    match t with
    | [] => some coeff
    | e :: r =>
      if e = 'e' || e = 'E' then
        let (eneg, r) :=
          match r with
          | '+' :: r' => (false, r')
          | '-' :: r' => (true, r')
          | r' => (false, r')
        let edig := r.takeWhile Char.isDigit
        let rest := r.dropWhile Char.isDigit
        if edig.isEmpty || ¬ rest.isEmpty then Option.none
        else if eneg then some (qmul coeff (mkRat 1 (10 ^ digitsVal edig)))
        else some (qmul coeff (mkRat ((10 : ℤ) ^ digitsVal edig) 1))
      else Option.none

/-- `Decimal(str(value))` as used throughout the source for raw-record sums:
fails (raises `InvalidOperation`) on `None` and non-numeric strings. -/
def decimalStr : Value → Option ℚ
  | .int n => some (n : ℚ)
  | .rat q => some q
  | .str s => parseDec s
  | _ => Option.none

/-- Python `int(value)`: identity on integers, truncation toward zero on
numbers, strict signed-digit parsing on strings; raises (`Option.none`) on
`None` and non-integer strings. -/
def pyInt : Value → Option ℤ
  | .int n => some n
  | .bool b => some (if b then 1 else 0)
  | .rat q => some (Int.tdiv q.num q.den)
  | .str s =>
      let t := pyStrip s
      let (sgn, t) :=
        match t with
        | '+' :: r => ((1 : ℤ), r)
        | '-' :: r => ((-1 : ℤ), r)
        | r => ((1 : ℤ), r)
      if t.isEmpty || ¬ t.all Char.isDigit then Option.none
      else some (sgn * (digitsVal t : ℤ))
  | _ => Option.none

/-- `safe_decimal_conversion` (views.py:87–94): total conversion of a scalar
to a decimal; `None`, the empty string, the case-insensitive strings
`nan`/`null`/`none`, and anything unparseable all become `0`. -/
def safe_decimal_conversion (v : Value) : ℚ :=
  if v = .none ∨ v = .missing then 0
  else if v = .str [] then 0
  else if pyLower (pyStr v) = "nan".toList ∨ pyLower (pyStr v) = "null".toList ∨
      pyLower (pyStr v) = "none".toList then 0
  else
    match v with
    | .int n => (n : ℚ)
    | .rat q => q
    | .bool _ => 0
    | .str s => (parseDec s).getD 0
    | _ => 0

/-- The specification's description of `toDecimal` (§4.1 of the spec),
written from its words: zero for null, empty string, or a string
case-insensitively equal to `nan`/`null`/`none`; otherwise the parsed
decimal value, and zero on parse failure. -/
def toDecimalSpec (v : Value) : ℚ :=
  match v with
  | .none => 0
  | .missing => 0
  | .str s =>
      if s.isEmpty then 0
      else if pyLower s = "nan".toList ∨ pyLower s = "null".toList ∨
          pyLower s = "none".toList then 0
      else (parseDec s).getD 0
  | .int n => (n : ℚ)
  | .rat q => q
  | .bool _ => 0

/-- A raw loan record: one JSON object of the upstream snapshot, each field a
scalar `Value` (`Value.missing` when the key is absent). -/
structure Rec where
  loan_no : Value := .missing
  pan : Value := .missing
  disbursal_date : Value := .missing
  repayment_date : Value := .missing
  last_received_date : Value := .missing
  loan_amount : Value := .missing
  net_disbursal : Value := .missing
  repayment_amount : Value := .missing
  processing_fee : Value := .missing
  interest_amount : Value := .missing
  total_received : Value := .missing
  overdue_days : Value := .missing
  tenure : Value := .missing
  reloan_status : Value := .missing
  closed_status : Value := .missing
  dpd_bucket : Value := .missing
  state : Value := .missing
  city : Value := .missing
  is_reloan_case : Value := .missing
  is_lead_closed : Value := .missing
  disbursal_amt : Value := .missing
deriving DecidableEq, Repr

/-- `sum(safe_decimal_conversion(record.get(field)) for record in records)`. -/
def sumSafe (f : Rec → Value) (l : List Rec) : ℚ :=
  sumQ (l.map fun r => safe_decimal_conversion (pyGetNone (f r)))

/-- `sum(safe_decimal_conversion(r.get(field, 0)) for r in records)`. -/
def sumSafe0 (f : Rec → Value) (l : List Rec) : ℚ :=
  sumQ (l.map fun r => safe_decimal_conversion (pyGet (f r) (.int 0)))

/-- `r.get('reloan_status') != 'Reloan'` — fresh/reloan Predicate A. -/
def isFreshA (r : Rec) : Bool := ¬ valueEqStr (pyGetNone r.reloan_status) "Reloan".toList

/-- `r.get('reloan_status') == 'Reloan'`. -/
def isReloan (r : Rec) : Bool := valueEqStr (pyGetNone r.reloan_status) "Reloan".toList

/-- `r.get('closed_status') == 'Not Closed'`. -/
def isNotClosed (r : Rec) : Bool := valueEqStr (pyGetNone r.closed_status) "Not Closed".toList

/-- `int(r.get('overdue_days', 0))`, the only coercion in
`calculate_kpi_from_records` that can raise. -/
def overdueInt (r : Rec) : Option ℤ := pyInt (pyGet r.overdue_days (.int 0))

/-- `round(x, 2)`: rounding to two places.  Python uses banker's rounding at
exact half-cent ties; the model rounds half toward positive infinity there
(Mathlib's `round`), a difference no claim exercises. -/
def round2 (q : ℚ) : ℚ := mkRat (qadd (qmul q 100) (mkRat 1 2)).floor 100

/-- The mapping returned by `calculate_kpi_from_records` (views.py:216–250). -/
structure Kpi where
  total_applications : ℕ
  sanction_amount : ℚ
  net_disbursal : ℚ
  repayment_amount : ℚ
  collected_amount : ℚ
  pending_collection : ℚ
  principal_outstanding : ℚ
  collection_rate : ℚ
  collected_percentage : ℚ
  pending_percentage : ℚ
  fresh_cases : ℕ
  reloan_cases : ℕ
  fresh_percentage : ℚ
  reloan_percentage : ℚ
  fresh_sanction_amount : ℚ
  reloan_sanction_amount : ℚ
  fresh_disbursed_amount : ℚ
  reloan_disbursed_amount : ℚ
  fresh_repayment_amount : ℚ
  reloan_repayment_amount : ℚ
  fresh_collected_amount : ℚ
  reloan_collected_amount : ℚ
  fresh_pending_amount : ℚ
  reloan_pending_amount : ℚ
  fresh_principal_outstanding : ℚ
  reloan_principal_outstanding : ℚ
  recoverable_amount_excl_90 : ℚ
  recovery_percentage_excl_90 : ℚ
  fresh_recoverable_excl_90 : ℚ
  fresh_recovery_percentage_excl_90 : ℚ
  reloan_recoverable_excl_90 : ℚ
  reloan_recovery_percentage_excl_90 : ℚ

/-- The all-zero KPI mapping returned for an empty record list
(views.py:100–135). -/
def zeroKpi : Kpi :=
  { total_applications := 0, sanction_amount := 0, net_disbursal := 0
    repayment_amount := 0, collected_amount := 0, pending_collection := 0
    principal_outstanding := 0, collection_rate := 0, collected_percentage := 0
    pending_percentage := 0, fresh_cases := 0, reloan_cases := 0
    fresh_percentage := 0, reloan_percentage := 0, fresh_sanction_amount := 0
    reloan_sanction_amount := 0, fresh_disbursed_amount := 0
    reloan_disbursed_amount := 0, fresh_repayment_amount := 0
    reloan_repayment_amount := 0, fresh_collected_amount := 0
    reloan_collected_amount := 0, fresh_pending_amount := 0
    reloan_pending_amount := 0, fresh_principal_outstanding := 0
    reloan_principal_outstanding := 0, recoverable_amount_excl_90 := 0
    recovery_percentage_excl_90 := 0, fresh_recoverable_excl_90 := 0
    fresh_recovery_percentage_excl_90 := 0, reloan_recoverable_excl_90 := 0
    reloan_recovery_percentage_excl_90 := 0 }

/-- `calculate_kpi_from_records` (views.py:96–250).  The only failure point
is `int(r.get('overdue_days', 0))` at line 188, which raises on a `None` or
non-integer value; everything else degrades through
`safe_decimal_conversion`. -/
def calculate_kpi_from_records (records : List Rec) : Except Unit Kpi :=
  if records.length = 0 then .ok zeroKpi
  else if records.all (fun r => (overdueInt r).isSome) then
    let sanction_amount := sumSafe Rec.loan_amount records
    let net_disbursal := sumSafe Rec.net_disbursal records
    let repayment_amount := sumSafe Rec.repayment_amount records
    let collected_amount := sumSafe Rec.total_received records
    let fresh_records := records.filter isFreshA
    let reloan_records := records.filter isReloan
    let fresh_cases := fresh_records.length
    let reloan_cases := reloan_records.length
    let fresh_sanction_amount := sumSafe Rec.loan_amount fresh_records
    let reloan_sanction_amount := sumSafe Rec.loan_amount reloan_records
    let fresh_disbursed_amount := sumSafe Rec.net_disbursal fresh_records
    let reloan_disbursed_amount := sumSafe Rec.net_disbursal reloan_records
    let fresh_repayment_amount := sumSafe Rec.repayment_amount fresh_records
    let reloan_repayment_amount := sumSafe Rec.repayment_amount reloan_records
    let fresh_collected_amount := sumSafe Rec.total_received fresh_records
    let reloan_collected_amount := sumSafe Rec.total_received reloan_records
    let not_closed_records := records.filter isNotClosed
    let not_closed_fresh := fresh_records.filter isNotClosed
    let not_closed_reloan := reloan_records.filter isNotClosed
    let principal_outstanding :=
      qsub (sumSafe Rec.net_disbursal not_closed_records)
        (sumSafe Rec.total_received not_closed_records)
    let fresh_principal_outstanding :=
      qsub (sumSafe Rec.net_disbursal not_closed_fresh)
        (sumSafe Rec.total_received not_closed_fresh)
    let reloan_principal_outstanding :=
      qsub (sumSafe Rec.net_disbursal not_closed_reloan)
        (sumSafe Rec.total_received not_closed_reloan)
    let total_applications := records.length
    let fresh_percentage := round2 (qmul (qdiv (fresh_cases : ℚ) (total_applications : ℚ)) 100)
    let reloan_percentage := round2 (qmul (qdiv (reloan_cases : ℚ) (total_applications : ℚ)) 100)
    let collection_rate :=
      if repayment_amount > 0 then round2 (qmul (qdiv collected_amount repayment_amount) 100)
      else 0
    let pending_percentage := if collection_rate > 0 then round2 (qsub 100 collection_rate) else 0
    let records_excl_90 := records.filter (fun r => (overdueInt r).getD 0 ≤ 90)
    let sanction_excl_90 := sumSafe0 Rec.loan_amount records_excl_90
    let received_excl_90 := sumSafe0 Rec.total_received records_excl_90
    let interest_excl_90 := sumSafe0 Rec.interest_amount records_excl_90
    let recoverable_amount_excl_90 := qsub received_excl_90 interest_excl_90
    let recovery_percentage_excl_90 :=
      if sanction_excl_90 > 0 then qmul (qdiv recoverable_amount_excl_90 sanction_excl_90) 100
      else 0
    let fresh_excl_90 := records_excl_90.filter isFreshA
    let fresh_sanction_excl_90 := sumSafe0 Rec.loan_amount fresh_excl_90
    let fresh_received_excl_90 := sumSafe0 Rec.total_received fresh_excl_90
    let fresh_interest_excl_90 := sumSafe0 Rec.interest_amount fresh_excl_90
    let fresh_recoverable_excl_90 := qsub fresh_received_excl_90 fresh_interest_excl_90
    let fresh_recovery_percentage_excl_90 :=
      if fresh_sanction_excl_90 > 0 then
        qmul (qdiv fresh_recoverable_excl_90 fresh_sanction_excl_90) 100
      else 0
    let reloan_excl_90 := records_excl_90.filter isReloan
    let reloan_sanction_excl_90 := sumSafe0 Rec.loan_amount reloan_excl_90
    let reloan_received_excl_90 := sumSafe0 Rec.total_received reloan_excl_90
    let reloan_interest_excl_90 := sumSafe0 Rec.interest_amount reloan_excl_90
    let reloan_recoverable_excl_90 := qsub reloan_received_excl_90 reloan_interest_excl_90
    let reloan_recovery_percentage_excl_90 :=
      if reloan_sanction_excl_90 > 0 then
        qmul (qdiv reloan_recoverable_excl_90 reloan_sanction_excl_90) 100
      else 0
    .ok
      { total_applications := total_applications
        sanction_amount := sanction_amount
        net_disbursal := net_disbursal
        repayment_amount := repayment_amount
        collected_amount := collected_amount
        pending_collection := qsub repayment_amount collected_amount
        principal_outstanding := principal_outstanding
        collection_rate := collection_rate
        collected_percentage := collection_rate
        pending_percentage := pending_percentage
        fresh_cases := fresh_cases
        reloan_cases := reloan_cases
        fresh_percentage := fresh_percentage
        reloan_percentage := reloan_percentage
        fresh_sanction_amount := fresh_sanction_amount
        reloan_sanction_amount := reloan_sanction_amount
        fresh_disbursed_amount := fresh_disbursed_amount
        reloan_disbursed_amount := reloan_disbursed_amount
        fresh_repayment_amount := fresh_repayment_amount
        reloan_repayment_amount := reloan_repayment_amount
        fresh_collected_amount := fresh_collected_amount
        reloan_collected_amount := reloan_collected_amount
        fresh_pending_amount := qsub fresh_repayment_amount fresh_collected_amount
        reloan_pending_amount := qsub reloan_repayment_amount reloan_collected_amount
        fresh_principal_outstanding := fresh_principal_outstanding
        reloan_principal_outstanding := reloan_principal_outstanding
        recoverable_amount_excl_90 := recoverable_amount_excl_90
        recovery_percentage_excl_90 := round2 recovery_percentage_excl_90
        fresh_recoverable_excl_90 := fresh_recoverable_excl_90
        fresh_recovery_percentage_excl_90 := round2 fresh_recovery_percentage_excl_90
        reloan_recoverable_excl_90 := reloan_recoverable_excl_90
        reloan_recovery_percentage_excl_90 := round2 reloan_recovery_percentage_excl_90 }
  else .error ()

/-- Every scalar field of a `Kpi` mapping, counts cast to `ℚ`. -/
def kpiFieldVals (k : Kpi) : List ℚ :=
  [(k.total_applications : ℚ), k.sanction_amount, k.net_disbursal,
   k.repayment_amount, k.collected_amount, k.pending_collection,
   k.principal_outstanding, k.collection_rate, k.collected_percentage,
   k.pending_percentage, (k.fresh_cases : ℚ), (k.reloan_cases : ℚ),
   k.fresh_percentage, k.reloan_percentage, k.fresh_sanction_amount,
   k.reloan_sanction_amount, k.fresh_disbursed_amount,
   k.reloan_disbursed_amount, k.fresh_repayment_amount,
   k.reloan_repayment_amount, k.fresh_collected_amount,
   k.reloan_collected_amount, k.fresh_pending_amount,
   k.reloan_pending_amount, k.fresh_principal_outstanding,
   k.reloan_principal_outstanding, k.recoverable_amount_excl_90,
   k.recovery_percentage_excl_90, k.fresh_recoverable_excl_90,
   k.fresh_recovery_percentage_excl_90, k.reloan_recoverable_excl_90,
   k.reloan_recovery_percentage_excl_90]

/-- Modelled from the spec: *Variant A* of principal outstanding (spec §4.5),
"sum of net_disbursal over records with no last_received_date and
total_received == 0".  No code in the repository computes this quantity; the
definition follows the specification's words so that the claim about it can
be stated. -/
def variantA_spec (records : List Rec) : ℚ :=
  sumSafe Rec.net_disbursal
    (records.filter fun r =>
      (¬ pyTruthy (pyGetNone r.last_received_date)) &&
        decide (safe_decimal_conversion (pyGetNone r.total_received) = 0))

/-- *Variant B* of principal outstanding, as computed at views.py:171:
`sum(net_disbursal) - sum(total_received)` over records with
`closed_status == 'Not Closed'`. -/
def variantB (records : List Rec) : ℚ :=
  qsub (sumSafe Rec.net_disbursal (records.filter isNotClosed))
    (sumSafe Rec.total_received (records.filter isNotClosed))

/-- A loan record as stored by the ORM (`dashboard/models.py`): the decimal
fields are typed and non-null, so `get_kpi_data`'s aggregation over a
queryset is total. -/
structure TypedRec where
  loan_amount : ℚ
  net_disbursal : ℚ
  repayment_amount : ℚ
  total_received : ℚ
  reloan_status : Str
  closed_status : Str
deriving DecidableEq, Repr

/-- Sum of one typed field over a queryset (`aggregate(Sum(...)) or 0`). -/
def sumT (f : TypedRec → ℚ) (l : List TypedRec) : ℚ := sumQ (l.map f)

/-- The mapping returned by `get_kpi_data` (views.py:365–395). -/
structure KpiB where
  total_applications : ℕ
  fresh_cases : ℕ
  fresh_percentage : ℚ
  reloan_cases : ℕ
  reloan_percentage : ℚ
  fresh_sanction_amount : ℚ
  reloan_sanction_amount : ℚ
  fresh_disbursed_amount : ℚ
  reloan_disbursed_amount : ℚ
  fresh_repayment_amount : ℚ
  reloan_repayment_amount : ℚ
  fresh_collected_amount : ℚ
  reloan_collected_amount : ℚ
  fresh_pending_amount : ℚ
  reloan_pending_amount : ℚ
  principal_outstanding_amount : ℚ
  fresh_principal_outstanding : ℚ
  reloan_principal_outstanding : ℚ
  sanction_amount : ℚ
  disbursed_amount : ℚ
  repayment_amount : ℚ
  actual_repayment_amount : ℚ
  repayment_with_penalty : ℚ
  earning : ℚ
  penalty : ℚ
  collected_amount : ℚ
  collected_percentage : ℚ
  pending_collection : ℚ
  pending_percentage : ℚ

/-- The all-zero `get_kpi_data` mapping for an empty queryset
(views.py:256–287). -/
def zeroKpiB : KpiB :=
  { total_applications := 0, fresh_cases := 0, fresh_percentage := 0
    reloan_cases := 0, reloan_percentage := 0, fresh_sanction_amount := 0
    reloan_sanction_amount := 0, fresh_disbursed_amount := 0
    reloan_disbursed_amount := 0, fresh_repayment_amount := 0
    reloan_repayment_amount := 0, fresh_collected_amount := 0
    reloan_collected_amount := 0, fresh_pending_amount := 0
    reloan_pending_amount := 0, principal_outstanding_amount := 0
    fresh_principal_outstanding := 0, reloan_principal_outstanding := 0
    sanction_amount := 0, disbursed_amount := 0, repayment_amount := 0
    actual_repayment_amount := 0, repayment_with_penalty := 0, earning := 0
    penalty := 0, collected_amount := 0, collected_percentage := 0
    pending_collection := 0, pending_percentage := 0 }

/-- `queryset.filter(reloan_status='Freash')` — fresh/reloan Predicate B on
typed records; `'Freash'` is the literal (misspelt) value in the data. -/
def isFreshT (r : TypedRec) : Bool := r.reloan_status = "Freash".toList

/-- `queryset.filter(reloan_status='Reloan')` on typed records. -/
def isReloanT (r : TypedRec) : Bool := r.reloan_status = "Reloan".toList

/-- `queryset.filter(closed_status='Not Closed')` on typed records. -/
def isNotClosedT (r : TypedRec) : Bool := r.closed_status = "Not Closed".toList

/-- `get_kpi_data` (views.py:252–395): KPI aggregation over an ORM queryset,
modelled as a list of typed records. -/
def get_kpi_data (l : List TypedRec) : KpiB :=
  if l.length = 0 then zeroKpiB
  else
    let total_applications := l.length
    let fresh_queryset := l.filter isFreshT
    let reloan_queryset := l.filter isReloanT
    let fresh_cases := fresh_queryset.length
    let reloan_cases := reloan_queryset.length
    let fresh_percentage := qmul (qdiv (fresh_cases : ℚ) (total_applications : ℚ)) 100
    let reloan_percentage := qmul (qdiv (reloan_cases : ℚ) (total_applications : ℚ)) 100
    let fresh_sanction := sumT TypedRec.loan_amount fresh_queryset
    let fresh_disbursed := sumT TypedRec.net_disbursal fresh_queryset
    let fresh_repayment := sumT TypedRec.repayment_amount fresh_queryset
    let fresh_collected := sumT TypedRec.total_received fresh_queryset
    let reloan_sanction := sumT TypedRec.loan_amount reloan_queryset
    let reloan_disbursed := sumT TypedRec.net_disbursal reloan_queryset
    let reloan_repayment := sumT TypedRec.repayment_amount reloan_queryset
    let reloan_collected := sumT TypedRec.total_received reloan_queryset
    let sanction_amount := sumT TypedRec.loan_amount l
    let disbursed_amount := sumT TypedRec.net_disbursal l
    let repayment_amount := sumT TypedRec.repayment_amount l
    let actual_repayment_amount := sumT TypedRec.total_received l
    let repayment_with_penalty := repayment_amount
    let earning := qsub actual_repayment_amount sanction_amount
    let penalty := qsub repayment_with_penalty sanction_amount
    let collected_amount := actual_repayment_amount
    let pending_collection := qsub repayment_amount collected_amount
    let collected_percentage :=
      if repayment_amount > 0 then round2 (qmul (qdiv collected_amount repayment_amount) 100)
      else 0
    let pending_percentage :=
      if repayment_amount > 0 then
        round2 (qmul (qdiv (qsub repayment_amount collected_amount) repayment_amount) 100)
      else 0
    let fresh_pending := qsub fresh_repayment fresh_collected
    let reloan_pending := qsub reloan_repayment reloan_collected
    let not_closed := l.filter isNotClosedT
    let principal_outstanding_amount :=
      qsub (sumT TypedRec.net_disbursal not_closed) (sumT TypedRec.total_received not_closed)
    let fresh_not_closed := not_closed.filter isFreshT
    let fresh_principal_outstanding :=
      qsub (sumT TypedRec.net_disbursal fresh_not_closed)
        (sumT TypedRec.total_received fresh_not_closed)
    let reloan_not_closed := not_closed.filter isReloanT
    let reloan_principal_outstanding :=
      qsub (sumT TypedRec.net_disbursal reloan_not_closed)
        (sumT TypedRec.total_received reloan_not_closed)
    { total_applications := total_applications
      fresh_cases := fresh_cases
      fresh_percentage := fresh_percentage
      reloan_cases := reloan_cases
      reloan_percentage := reloan_percentage
      fresh_sanction_amount := fresh_sanction
      reloan_sanction_amount := reloan_sanction
      fresh_disbursed_amount := fresh_disbursed
      reloan_disbursed_amount := reloan_disbursed
      fresh_repayment_amount := fresh_repayment
      reloan_repayment_amount := reloan_repayment
      fresh_collected_amount := fresh_collected
      reloan_collected_amount := reloan_collected
      fresh_pending_amount := fresh_pending
      reloan_pending_amount := reloan_pending
      principal_outstanding_amount := principal_outstanding_amount
      fresh_principal_outstanding := fresh_principal_outstanding
      reloan_principal_outstanding := reloan_principal_outstanding
      sanction_amount := sanction_amount
      disbursed_amount := disbursed_amount
      repayment_amount := repayment_amount
      actual_repayment_amount := actual_repayment_amount
      repayment_with_penalty := repayment_with_penalty
      earning := earning
      penalty := penalty
      collected_amount := collected_amount
      collected_percentage := collected_percentage
      pending_collection := pending_collection
      pending_percentage := pending_percentage }

/-- `Decimal(str(r.get(field, 0)))` summed over records; under the
`fraudRecOk` guard the `getD 0` fallback is never taken. -/
def sumDec0 (f : Rec → Value) (l : List Rec) : ℚ :=
  sumQ (l.map fun r => (decimalStr (pyGet (f r) (.int 0))).getD 0)

/-- `record.get('reloan_status') == 'Freash'` — Predicate B on raw records. -/
def isFreshB (r : Rec) : Bool := valueEqStr (pyGetNone r.reloan_status) "Freash".toList

/-- A raw-record field convertible by `Decimal(str(r.get(field, 0)))`. -/
def fraudFieldOk (v : Value) : Bool := (decimalStr (pyGet v (.int 0))).isSome

/-- All six fields that `api_fraud_kpi_data` converts with
`Decimal(str(...))`; the function raises iff some record fails this. -/
def fraudRecOk (r : Rec) : Bool :=
  fraudFieldOk r.loan_amount && fraudFieldOk r.net_disbursal &&
    fraudFieldOk r.repayment_amount && fraudFieldOk r.total_received &&
    fraudFieldOk r.processing_fee && fraudFieldOk r.interest_amount

/-- The mapping returned by `api_fraud_kpi_data` (views.py:1748–1774),
without the `filter_options` garnish. -/
structure FraudKpi where
  total_applications : ℕ
  fresh_cases : ℕ
  fresh_percentage : ℚ
  reloan_cases : ℕ
  reloan_percentage : ℚ
  fresh_sanction_amount : ℚ
  reloan_sanction_amount : ℚ
  fresh_disbursed_amount : ℚ
  reloan_disbursed_amount : ℚ
  fresh_repayment_amount : ℚ
  reloan_repayment_amount : ℚ
  fresh_collected_amount : ℚ
  reloan_collected_amount : ℚ
  fresh_pending_amount : ℚ
  reloan_pending_amount : ℚ
  principal_outstanding : ℚ
  fresh_principal_outstanding : ℚ
  reloan_principal_outstanding : ℚ
  sanction_amount : ℚ
  disbursed_amount : ℚ
  repayment_amount : ℚ
  earning : ℚ
  penalty : ℚ
  collected_amount : ℚ
  pending_collection : ℚ
  collection_rate : ℚ

/-- The all-zero `api_fraud_kpi_data` mapping returned when no record
survives filtering (views.py:1654–1682). -/
def zeroFraudKpi : FraudKpi :=
  { total_applications := 0, fresh_cases := 0, fresh_percentage := 0
    reloan_cases := 0, reloan_percentage := 0, fresh_sanction_amount := 0
    reloan_sanction_amount := 0, fresh_disbursed_amount := 0
    reloan_disbursed_amount := 0, fresh_repayment_amount := 0
    reloan_repayment_amount := 0, fresh_collected_amount := 0
    reloan_collected_amount := 0, fresh_pending_amount := 0
    reloan_pending_amount := 0, principal_outstanding := 0
    fresh_principal_outstanding := 0, reloan_principal_outstanding := 0
    sanction_amount := 0, disbursed_amount := 0, repayment_amount := 0
    earning := 0, penalty := 0, collected_amount := 0, pending_collection := 0
    collection_rate := 0 }

/-- `api_fraud_kpi_data` (views.py:1640–1784), from the point where the
filtered records are in hand.  Every per-record amount goes through
`Decimal(str(r.get(field, 0)))`, which raises on `None` or a non-numeric
string — modelled by the `fraudRecOk` guard. -/
def api_fraud_kpi_data (records : List Rec) : Except Unit FraudKpi :=
  if records.isEmpty then .ok zeroFraudKpi
  else if records.all fraudRecOk then
    let total_applications := records.length
    let fresh_records := records.filter isFreshB
    let reloan_records := records.filter isReloan
    let fresh_cases := fresh_records.length
    let reloan_cases := reloan_records.length
    let fresh_percentage := qmul (qdiv (fresh_cases : ℚ) (total_applications : ℚ)) 100
    let reloan_percentage := qmul (qdiv (reloan_cases : ℚ) (total_applications : ℚ)) 100
    let fresh_sanction_amount := sumDec0 Rec.loan_amount fresh_records
    let fresh_disbursed_amount := sumDec0 Rec.net_disbursal fresh_records
    let fresh_repayment_amount := sumDec0 Rec.repayment_amount fresh_records
    let fresh_collected_amount := sumDec0 Rec.total_received fresh_records
    let reloan_sanction_amount := sumDec0 Rec.loan_amount reloan_records
    let reloan_disbursed_amount := sumDec0 Rec.net_disbursal reloan_records
    let reloan_repayment_amount := sumDec0 Rec.repayment_amount reloan_records
    let reloan_collected_amount := sumDec0 Rec.total_received reloan_records
    let sanction_amount := sumDec0 Rec.loan_amount records
    let disbursed_amount := sumDec0 Rec.net_disbursal records
    let repayment_amount := sumDec0 Rec.repayment_amount records
    let processing_fee := sumDec0 Rec.processing_fee records
    let interest_amount := sumDec0 Rec.interest_amount records
    let total_received := sumDec0 Rec.total_received records
    let not_closed_records := records.filter isNotClosed
    let not_closed_fresh := fresh_records.filter isNotClosed
    let not_closed_reloan := reloan_records.filter isNotClosed
    let principal_outstanding_amount :=
      qsub (sumDec0 Rec.net_disbursal not_closed_records)
        (sumDec0 Rec.total_received not_closed_records)
    let fresh_principal_outstanding :=
      qsub (sumDec0 Rec.net_disbursal not_closed_fresh)
        (sumDec0 Rec.total_received not_closed_fresh)
    let reloan_principal_outstanding :=
      qsub (sumDec0 Rec.net_disbursal not_closed_reloan)
        (sumDec0 Rec.total_received not_closed_reloan)
    let earning := qadd processing_fee interest_amount
    let collected_amount := total_received
    let pending_collection := qsub repayment_amount collected_amount
    let collection_rate :=
      if repayment_amount > 0 then round2 (qmul (qdiv collected_amount repayment_amount) 100)
      else 0
    .ok
      { total_applications := total_applications
        fresh_cases := fresh_cases
        fresh_percentage := fresh_percentage
        reloan_cases := reloan_cases
        reloan_percentage := reloan_percentage
        fresh_sanction_amount := fresh_sanction_amount
        reloan_sanction_amount := reloan_sanction_amount
        fresh_disbursed_amount := fresh_disbursed_amount
        reloan_disbursed_amount := reloan_disbursed_amount
        fresh_repayment_amount := fresh_repayment_amount
        reloan_repayment_amount := reloan_repayment_amount
        fresh_collected_amount := fresh_collected_amount
        reloan_collected_amount := reloan_collected_amount
        fresh_pending_amount := qsub fresh_repayment_amount fresh_collected_amount
        reloan_pending_amount := qsub reloan_repayment_amount reloan_collected_amount
        principal_outstanding := principal_outstanding_amount
        fresh_principal_outstanding := fresh_principal_outstanding
        reloan_principal_outstanding := reloan_principal_outstanding
        sanction_amount := sanction_amount
        disbursed_amount := disbursed_amount
        repayment_amount := repayment_amount
        earning := earning
        penalty := 0
        collected_amount := collected_amount
        pending_collection := pending_collection
        collection_rate := collection_rate }
  else .error ()

/-- `normalize_city_name` (views.py:1533–1552): falsy values pass through;
otherwise `str(...).strip()`, then keyword containment maps Delhi / Mumbai /
Hyderabad districts onto their main city. -/
def normalize_city_name (city_name : Value) : Value :=
  if ¬ pyTruthy city_name then city_name
  else
    let s := pyStrip (pyStr city_name)
    if strContains (pyLower s) "delhi".toList then .str "Delhi".toList
    else if strContains (pyLower s) "mumbai".toList then .str "Mumbai".toList
    else if strContains (pyLower s) "medchal".toList ||
        strContains (pyLower s) "malkajgiri".toList then .str "Hyderabad".toList
    else .str s

/-- Association-list `dict.get(key, default)` over string keys. -/
def assocGet (m : List (Str × Str)) (k : Str) (d : Str) : Str :=
  match m with
  | [] => d
  | (k', v) :: t => if k = k' then v else assocGet t k d

/-- The fixed DPD-bucket table of `normalize_dpd_bucket` (views.py:1560–1579). -/
def dpd_bucket_mapping : List (Str × Str) :=
  [("0".toList, "0 days DPD".toList),
   ("0-30".toList, "DPD 1-30".toList),
   ("DPD 1-30".toList, "DPD 1-30".toList),
   ("31-60".toList, "DPD 31-60".toList),
   ("DPD 31-60".toList, "DPD 31-60".toList),
   ("61-90".toList, "DPD 61-90".toList),
   ("DPD 61-90".toList, "DPD 61-90".toList),
   ("91-120".toList, "DPD 91-120".toList),
   ("DPD 91-120".toList, "DPD 91-120".toList),
   ("121-150".toList, "DPD 121-150".toList),
   ("DPD 121-150".toList, "DPD 121-150".toList),
   ("151-180".toList, "DPD 151-180".toList),
   ("DPD 151-180".toList, "DPD 151-180".toList),
   ("181-365".toList, "DPD 181-365".toList),
   ("DPD 181-365".toList, "DPD 181-365".toList),
   ("365+".toList, "DPD 365+".toList),
   ("DPD 365+".toList, "DPD 365+".toList),
   ("No DPD".toList, "No DPD".toList)]

/-- `normalize_dpd_bucket` (views.py:1554–1581): falsy values pass through;
otherwise the fixed table lookup with the input itself as default (a
non-string truthy value matches no string key and passes through). -/
def normalize_dpd_bucket (bucket : Value) : Value :=
  if ¬ pyTruthy bucket then bucket
  else
    match bucket with
    | .str s => .str (assocGet dpd_bucket_mapping s s)
    | v => v

/-- The ISO-style date ordinal `y*10000 + m*100 + d`, strictly monotone in
calendar order for valid dates, used for date comparisons. -/
def ordOfYMD : ℤ × ℕ × ℕ → ℤ
  | (y, m, d) => y * 10000 + (m : ℤ) * 100 + (d : ℤ)

/-- Gregorian leap year. -/
def isLeap (y : ℤ) : Bool := (y % 4 = 0 && ¬ y % 100 = 0) || y % 400 = 0

/-- Length of a month. -/
def daysInMonth (y : ℤ) (m : ℕ) : ℕ :=
  if m = 1 ∨ m = 3 ∨ m = 5 ∨ m = 7 ∨ m = 8 ∨ m = 10 ∨ m = 12 then 31
  else if m = 4 ∨ m = 6 ∨ m = 9 ∨ m = 11 then 30
  else if isLeap y then 29
  else 28

/-- The next calendar day. -/
def nextDay : ℤ × ℕ × ℕ → ℤ × ℕ × ℕ
  | (y, m, d) =>
      if d < daysInMonth y m then (y, m, d + 1)
      else if m < 12 then (y, m + 1, 1)
      else (y + 1, 1, 1)

/-- `datetime.strptime(s, '%Y-%m-%d')`: digits-dash-digits-dash-digits with a
calendar validity check; no trailing characters. -/
def parseYMD (s : Str) : Option (ℤ × ℕ × ℕ) :=
  let yd := s.takeWhile Char.isDigit
  let r1 := s.dropWhile Char.isDigit
  match r1 with
  | '-' :: r2 =>
    let md := r2.takeWhile Char.isDigit
    let r3 := r2.dropWhile Char.isDigit
    match r3 with
    | '-' :: r4 =>
      let dd := r4.takeWhile Char.isDigit
      let r5 := r4.dropWhile Char.isDigit
      if yd.isEmpty || md.isEmpty || dd.isEmpty || ¬ r5.isEmpty then Option.none
      else
        let y : ℤ := (digitsVal yd : ℤ)
        let m := digitsVal md
        let d := digitsVal dd
        if 1 ≤ m ∧ m ≤ 12 ∧ 1 ≤ d ∧ d ≤ daysInMonth y m then some (y, m, d)
        else Option.none
    | _ => Option.none
  | _ => Option.none

/-- Parse `HH:MM[:SS[.ffff]]` (two-digit fields, value-checked) followed by
an optional timezone designator, returning seconds since midnight. -/
def parseTimeOfDay (s : Str) : Option ℕ :=
  match s with
  | h1 :: h2 :: ':' :: m1 :: m2 :: rest =>
    if h1.isDigit && h2.isDigit && m1.isDigit && m2.isDigit then
      let hh := digitsVal [h1, h2]
      let mm := digitsVal [m1, m2]
      let secAndTz :=
        match rest with
        | ':' :: s1 :: s2 :: rest' =>
          if s1.isDigit && s2.isDigit then some (digitsVal [s1, s2], rest') else Option.none
        | _ => some (0, rest)
      match secAndTz with
      | some (ss, tz) =>
        let tzOk :=
          match tz with
          | [] => true
          | 'Z' :: [] => true
          | '+' :: _ => true
          | '-' :: _ => true
          | '.' :: _ => true
          | _ => false
        if hh < 24 ∧ mm < 60 ∧ ss < 60 ∧ tzOk then some (hh * 3600 + mm * 60 + ss)
        else Option.none
      | Option.none => Option.none
    else Option.none
  | _ => Option.none

/-- `parse_datetime_safely` (views.py:51–84): a `'T'`-style timestamp has
5 h 30 min added to its clock (the IST shift; the parsed offset is not
subtracted — the source adds a plain `timedelta`) and the resulting calendar
date is returned; a plain date string is parsed as `%Y-%m-%d` after cutting
at the first space; anything unparseable or non-string yields `none`. -/
def parse_datetime_safely (v : Value) : Option ℤ :=
  match v with
  | .str s =>
    if s.contains 'T' then
      let datePart := s.takeWhile (· ≠ 'T')
      let timePart := (s.dropWhile (· ≠ 'T')).drop 1
      match parseYMD datePart, parseTimeOfDay timePart with
      | some ymd, some sec =>
          if sec + 19800 ≥ 86400 then some (ordOfYMD (nextDay ymd)) else some (ordOfYMD ymd)
      | _, _ => Option.none
    else (parseYMD (s.takeWhile (· ≠ ' '))).map ordOfYMD
  | _ => Option.none

/-- The filter query parameters consumed by `apply_fraud_filters`
(`request.GET.get(...)`: absent parameters are `none`; an empty string is
falsy and disables the corresponding filter). -/
structure FilterParams where
  date_from : Option Str := Option.none
  date_to : Option Str := Option.none
  date_type : Option Str := Option.none
  closing_status : Option Str := Option.none
  dpd : Option Str := Option.none
  state : Option Str := Option.none
  city : Option Str := Option.none
deriving DecidableEq, Repr

/-- Truthiness of `request.GET.get(name)`. -/
def paramTruthy : Option Str → Bool
  | Option.none => false
  | some s => ¬ s.isEmpty

/-- The value of a (present) parameter. -/
def paramVal (o : Option Str) : Str := o.getD []

/-- The date-range stage of `apply_fraud_filters` (views.py:1585–1612):
active only when both bounds are truthy and parse as `%Y-%m-%d` (a parse
failure is swallowed by `except (ValueError, AttributeError): pass`); keeps
records whose chosen date field is truthy, parses, and falls inclusively in
range. -/
def dateStage (p : FilterParams) (records : List Rec) : List Rec :=
  if paramTruthy p.date_from && paramTruthy p.date_to then
    match parseYMD (paramVal p.date_from), parseYMD (paramVal p.date_to) with
    | some df, some dt =>
      let dfo := ordOfYMD df
      let dto := ordOfYMD dt
      let date_type := p.date_type.getD "repayment_date".toList
      if date_type = "disbursal_date".toList then
        records.filter fun r =>
          pyTruthy r.disbursal_date &&
            match parse_datetime_safely r.disbursal_date with
            | some d => decide (dfo ≤ d) && decide (d ≤ dto)
            | Option.none => false
      else
        records.filter fun r =>
          pyTruthy r.repayment_date &&
            match parse_datetime_safely r.repayment_date with
            | some d => decide (dfo ≤ d) && decide (d ≤ dto)
            | Option.none => false
    | _, _ => records
  else records

/-- Monadic filter: the predicate of a Python list comprehension raises at
the first failing element. -/
def pyFilterE (p : α → Except Unit Bool) : List α → Except Unit (List α)
  | [] => .ok []
  | a :: t =>
    match p a with
    | .error e => .error e
    | .ok b =>
      match pyFilterE p t with
      | .error e => .error e
      | .ok t' => .ok (if b then a :: t' else t')

/-- `r.get('city', '').strip() == city_filter.strip()`: raises
(`AttributeError`) when the record's city is present but not a string. -/
def cityPredE (cf : Str) (r : Rec) : Except Unit Bool :=
  match pyGet r.city (.str []) with
  | .str s => .ok (pyStrip s = pyStrip cf)
  | _ => .error ()

/-- The closing-status stage of `apply_fraud_filters` (views.py:1614–1615). -/
def closingStage (p : FilterParams) (l : List Rec) : List Rec :=
  if paramTruthy p.closing_status then
    l.filter fun r => valueEqStr (pyGetNone r.closed_status) (paramVal p.closing_status)
  else l

/-- The DPD stage of `apply_fraud_filters` (views.py:1617–1618). -/
def dpdStage (p : FilterParams) (l : List Rec) : List Rec :=
  if paramTruthy p.dpd then
    l.filter fun r => valueEqStr (pyGetNone r.dpd_bucket) (paramVal p.dpd)
  else l

/-- The hierarchical state → city stage of `apply_fraud_filters`
(views.py:1620–1634).  Only the city comparison can raise (on a non-string
city value). -/
def stateCityStage (p : FilterParams) (l : List Rec) : Except Unit (List Rec) :=
  if paramTruthy p.state then
    let r4 := l.filter fun r => valueEqStr (pyGetNone r.state) (paramVal p.state)
    if paramTruthy p.city then pyFilterE (cityPredE (paramVal p.city)) r4 else .ok r4
  else if paramTruthy p.city then pyFilterE (cityPredE (paramVal p.city)) l
  else .ok l

/-- `apply_fraud_filters` (views.py:1583–1636): date range, closing status,
DPD bucket, then hierarchical state → city filters. -/
def apply_fraud_filters (p : FilterParams) (records : List Rec) : Except Unit (List Rec) :=
  stateCityStage p (dpdStage p (closingStage p (dateStage p records)))

/-- One normalized-city accumulator row of the city-ranking endpoints. -/
structure CityGroup where
  city : Value
  collected : ℚ
  repay : ℚ
  apps : ℕ
deriving DecidableEq, Repr

/-- Add one record's amounts into the per-city accumulator, preserving
first-occurrence (dictionary insertion) order. -/
def upsertCity (acc : List CityGroup) (key : Value) (tr rep : ℚ) : List CityGroup :=
  match acc with
  | [] => [⟨key, tr, rep, 1⟩]
  | g :: t =>
      if g.city = key then ⟨g.city, qadd g.collected tr, qadd g.repay rep, g.apps + 1⟩ :: t
      else g :: upsertCity t key tr rep

/-- The grouping loop shared by `api_city_collected` and
`api_city_uncollected` (views.py:831–846): key
`normalize_city_name(record.get('city', 'Unknown'))`, summing
`total_received` and `repayment_amount`. -/
def cityAgg (l : List Rec) : List CityGroup :=
  l.foldl
    (fun acc r =>
      upsertCity acc (normalize_city_name (pyGet r.city (.str "Unknown".toList)))
        ((decimalStr (pyGet r.total_received (.int 0))).getD 0)
        ((decimalStr (pyGet r.repayment_amount (.int 0))).getD 0))
    []

/-- Both city fields convertible by `Decimal(str(...))` — otherwise the
grouping loop raises. -/
def cityFieldsOk (r : Rec) : Bool :=
  (decimalStr (pyGet r.total_received (.int 0))).isSome &&
    (decimalStr (pyGet r.repayment_amount (.int 0))).isSome

/-- One row of the city-ranking response. -/
structure CityEntry where
  city : Value
  collected_amount : ℚ
  repayment_amount : ℚ
  collection_percentage : ℚ
  total_applications : ℕ
deriving DecidableEq, Repr

/-- `total_applications >= 20 and repayment_amount > 0`
(views.py:852–853). -/
def cityQualifies (g : CityGroup) : Bool :=
  decide (20 ≤ g.apps) && decide (0 < g.repay)

/-- The response row built for a qualifying city (views.py:854–862). -/
def toCityEntry (g : CityGroup) : CityEntry :=
  ⟨g.city, g.collected, g.repay, qmul (qdiv g.collected g.repay) 100, g.apps⟩

/-- The `result` list of views.py:849–862: one row per qualifying city
group, in grouping order, before sorting and truncation. -/
def cityRanked (l : List Rec) : List CityEntry :=
  (cityAgg l).filterMap fun g => if cityQualifies g then some (toCityEntry g) else none

/-- Descending collection-percentage comparison (stable under `mergeSort`,
like Python's `sort(reverse=True)`). -/
def cityDesc (a b : CityEntry) : Bool := decide (b.collection_percentage ≤ a.collection_percentage)

/-- Ascending collection-percentage comparison. -/
def cityAsc (a b : CityEntry) : Bool := decide (a.collection_percentage ≤ b.collection_percentage)

/-- `api_city_collected` (views.py:813–871) from the point where the
filtered records are in hand: group, keep qualifying cities, sort by
collection percentage descending, truncate to 10.  The `Decimal(str(...))`
conversions raise on malformed amounts — the `cityFieldsOk` guard. -/
def api_city_collected (l : List Rec) : Except Unit (List CityEntry) :=
  if l.isEmpty then .ok []
  else if l.all cityFieldsOk then
    .ok (((cityRanked l).mergeSort cityDesc).take 10)
  else .error ()

/-- One row of the worst-performers response (adds `uncollected_amount`,
views.py:918–927). -/
structure CityEntryW where
  city : Value
  collected_amount : ℚ
  repayment_amount : ℚ
  uncollected_amount : ℚ
  collection_percentage : ℚ
  total_applications : ℕ
deriving DecidableEq, Repr

/-- The worst-performers response row (views.py:917–927). -/
def toCityEntryW (g : CityGroup) : CityEntryW :=
  ⟨g.city, g.collected, g.repay, qsub g.repay g.collected,
    qmul (qdiv g.collected g.repay) 100, g.apps⟩

/-- The pre-sort `result` list of `api_city_uncollected`
(views.py:912–927). -/
def cityRankedW (l : List Rec) : List CityEntryW :=
  (cityAgg l).filterMap fun g => if cityQualifies g then some (toCityEntryW g) else none

/-- Ascending comparison for the worst ranking. -/
def cityAscW (a b : CityEntryW) : Bool :=
  decide (a.collection_percentage ≤ b.collection_percentage)

/-- `api_city_uncollected` (views.py:876–936) from the filtered records:
same grouping and qualification, sorted ascending (worst first), truncated
to 10. -/
def api_city_uncollected (l : List Rec) : Except Unit (List CityEntryW) :=
  if l.isEmpty then .ok []
  else if l.all cityFieldsOk then
    .ok (((cityRankedW l).mergeSort cityAscW).take 10)
  else .error ()

/-- `get_amount_bucket` (views.py:2179–2205): classify an amount in
thousands into a band label; the trailing `else: return None` is reachable
only for values outside the total order (never for a rational). -/
def get_amount_bucket (amount : ℚ) : Option Str :=
  if amount < 5 then some "<5k".toList
  else if 5 ≤ amount ∧ amount < 10 then some "5-10k".toList
  else if 10 ≤ amount ∧ amount < 20 then some "10-20k".toList
  else if 20 ≤ amount ∧ amount < 30 then some "20-30k".toList
  else if 30 ≤ amount ∧ amount < 40 then some "30-40k".toList
  else if 40 ≤ amount ∧ amount < 50 then some "40-50k".toList
  else if 50 ≤ amount ∧ amount < 60 then some "50-60k".toList
  else if 60 ≤ amount ∧ amount < 70 then some "60-70k".toList
  else if 70 ≤ amount ∧ amount < 80 then some "70-80k".toList
  else if 80 ≤ amount ∧ amount < 90 then some "80-90k".toList
  else if 90 ≤ amount then some "90+k".toList
  else none

/-- The fixed band order (views.py:2210). -/
def bucket_order : List Str :=
  ["<5k".toList, "5-10k".toList, "10-20k".toList, "20-30k".toList,
   "30-40k".toList, "40-50k".toList, "50-60k".toList, "60-70k".toList,
   "70-80k".toList, "80-90k".toList, "90+k".toList]

/-- Accumulator row for one amount band (views.py:2213–2222). -/
structure Band where
  bucket : Str
  count : ℕ
  total_count : ℕ
  total_pending_amount : ℚ
  total_repayment_amount : ℚ
  total_collected_amount : ℚ
  pending_count : ℕ
deriving DecidableEq, Repr

/-- The initial all-zero band row. -/
def initBand (name : Str) : Band := ⟨name, 0, 0, 0, 0, 0, 0⟩

/-- Update the row of the named band in place. -/
def updateBand (bands : List Band) (name : Str) (f : Band → Band) : List Band :=
  bands.map fun b => if b.bucket = name then f b else b

/-- Processing one record of `api_fraud_pending_cases_by_amount`
(views.py:2229–2257): classify by `max(repayment_amount, 0) / 1000`, count
it, add its (unclamped) repayment and collected amounts, and — for
`'Not Closed'` records — count it pending with its clamped pending
amount. -/
def bandStep (st : List Band × ℚ) (r : Rec) : List Band × ℚ :=
  let repayment_amount := safe_decimal_conversion (pyGet r.repayment_amount (.int 0))
  let total_received := safe_decimal_conversion (pyGet r.total_received (.int 0))
  let repayment_for_bucket := max repayment_amount 0
  let repayment_in_k := qdiv repayment_for_bucket 1000
  match get_amount_bucket repayment_in_k with
  | Option.none => st
  | some name =>
    if bucket_order.contains name then
      let pending_amount := qsub repayment_amount total_received
      let pending_amount := if pending_amount < 0 then 0 else pending_amount
      let bands := updateBand st.1 name fun b =>
        { b with
          total_count := b.total_count + 1
          total_repayment_amount := qadd b.total_repayment_amount repayment_amount
          total_collected_amount := qadd b.total_collected_amount total_received }
      if isNotClosed r then
        (updateBand bands name fun b =>
          { b with
            count := b.count + 1
            pending_count := b.pending_count + 1
            total_pending_amount := qadd b.total_pending_amount pending_amount },
         qadd st.2 pending_amount)
      else (bands, st.2)
    else st

/-- One row of the amount-band response (views.py:2280–2290). -/
structure BandOut where
  bucket : Str
  count : ℕ
  pending_count : ℕ
  total_count : ℕ
  total_pending_amount : ℚ
  total_repayment_amount : ℚ
  total_collected_amount : ℚ
  pending_percentage_count : ℚ
  pending_percentage_amount : ℚ
deriving DecidableEq, Repr

/-- The amount-band response: per-band rows in `bucket_order` plus the
overall pending total (views.py:2292–2295). -/
structure BandRes where
  buckets : List BandOut
  overall_total_pending_amount : ℚ
deriving DecidableEq, Repr

/-- Format one accumulated band row (views.py:2261–2290). -/
def bandOut (b : Band) : BandOut :=
  { bucket := b.bucket
    count := b.count
    pending_count := b.pending_count
    total_count := b.total_count
    total_pending_amount := b.total_pending_amount
    total_repayment_amount := b.total_repayment_amount
    total_collected_amount := b.total_collected_amount
    pending_percentage_count :=
      if 0 < b.total_count then qmul (qdiv (b.pending_count : ℚ) (b.total_count : ℚ)) 100
      else 0
    pending_percentage_amount :=
      if 0 < b.total_repayment_amount then
        qmul (qdiv b.total_pending_amount b.total_repayment_amount) 100
      else 0 }

/-- `api_fraud_pending_cases_by_amount` (views.py:2160–2299) from the
filtered records.  An empty filtered list short-circuits to an empty
response; all conversions go through `safe_decimal_conversion`, so the
computation is total. -/
def api_fraud_pending_cases_by_amount (l : List Rec) : BandRes :=
  if l.isEmpty then { buckets := [], overall_total_pending_amount := 0 }
  else
    let st := l.foldl bandStep (bucket_order.map initBand, 0)
    { buckets := st.1.map bandOut, overall_total_pending_amount := st.2 }

/-- Monadic map: a Python loop that raises at the first failing element. -/
def pyMapE (f : α → Except Unit β) : List α → Except Unit (List β)
  | [] => .ok []
  | a :: t =>
    match f a with
    | .error e => .error e
    | .ok b =>
      match pyMapE f t with
      | .error e => .error e
      | .ok t' => .ok (b :: t')

/-- `.lower()` on a dictionary value: raises unless it is a string. -/
def lowerOrRaise (v : Value) : Except Unit Str :=
  match v with
  | .str s => .ok (pyLower s)
  | _ => .error ()

/-- `.upper()` on a dictionary value: raises unless it is a string. -/
def upperOrRaise (v : Value) : Except Unit Str :=
  match v with
  | .str s => .ok (pyUpper s)
  | _ => .error ()

/-- Look a record's field up by its dictionary key (the fixed schema of the
upstream snapshot); unknown keys behave as absent. -/
def recField (r : Rec) (k : Str) : Value :=
  if k = "loan_no".toList then r.loan_no
  else if k = "pan".toList then r.pan
  else if k = "disbursal_date".toList then r.disbursal_date
  else if k = "repayment_date".toList then r.repayment_date
  else if k = "last_received_date".toList then r.last_received_date
  else if k = "loan_amount".toList then r.loan_amount
  else if k = "net_disbursal".toList then r.net_disbursal
  else if k = "repayment_amount".toList then r.repayment_amount
  else if k = "processing_fee".toList then r.processing_fee
  else if k = "interest_amount".toList then r.interest_amount
  else if k = "total_received".toList then r.total_received
  else if k = "overdue_days".toList then r.overdue_days
  else if k = "tenure".toList then r.tenure
  else if k = "reloan_status".toList then r.reloan_status
  else if k = "closed_status".toList then r.closed_status
  else if k = "dpd_bucket".toList then r.dpd_bucket
  else if k = "state".toList then r.state
  else if k = "city".toList then r.city
  else if k = "is_reloan_case".toList then r.is_reloan_case
  else if k = "is_lead_closed".toList then r.is_lead_closed
  else if k = "Disbursal_Amt".toList then r.disbursal_amt
  else .missing

/-- `key in record`. -/
def recHasKey (r : Rec) (k : Str) : Bool := recField r k ≠ .missing

/-- Comparison kind of a sort-key value: numbers (booleans included), then
strings, then incomparable values such as `None`. -/
def keyKind : Value → ℕ
  | .int _ => 0
  | .rat _ => 0
  | .bool _ => 0
  | .str _ => 1
  | _ => 2

/-- Numeric sort key. -/
def keyNum : Value → ℚ
  | .int n => (n : ℚ)
  | .rat q => q
  | .bool b => if b then 1 else 0
  | _ => 0

/-- String sort key. -/
def keyStr : Value → Str
  | .str s => s
  | _ => []

/-- Code-point lexicographic `<` on strings (Python string comparison). -/
def strLt : Str → Str → Bool
  | [], [] => false
  | [], _ :: _ => true
  | _ :: _, [] => false
  | a :: as, b :: bs => if a = b then strLt as bs else decide (a.toNat < b.toNat)

/-- Python's stable sort with raw dictionary values as keys
(`sort(key=lambda x: x.get(sort_by, ''), reverse=...)`).  Comparing a `None`
or mixing a number with a string raises `TypeError`; Timsort touches every
adjacent pair, so for two or more elements the sort succeeds exactly when
all keys are numbers or all keys are strings (one element needs no
comparison). -/
def pySortByValue (key : α → Value) (desc : Bool) (l : List α) : Except Unit (List α) :=
  if l.length ≤ 1 then .ok l
  else
    let keys := l.map key
    if keys.all fun v => keyKind v = 0 then
      .ok (l.mergeSort fun a b =>
        if desc then decide (keyNum (key b) ≤ keyNum (key a))
        else decide (keyNum (key a) ≤ keyNum (key b)))
    else if keys.all fun v => keyKind v = 1 then
      .ok (l.mergeSort fun a b =>
        if desc then ¬ strLt (keyStr (key a)) (keyStr (key b))
        else ¬ strLt (keyStr (key b)) (keyStr (key a)))
    else .error ()

/-- The search / sort / pagination query parameters of the detail-list
endpoints, after `int()` coercion of `page` and `per_page` (a non-integer
value of those raises before any record work and is outside the model). -/
structure DetailParams where
  search : Str := []
  page : ℤ := 1
  per_page : ℤ := 20
  sort_by : Str := "disbursal_date".toList
  sort_order : Str := "desc".toList
deriving DecidableEq, Repr

/-- Python list slice `l[a:b]` with negative-index wrapping. -/
def pySliceInt (l : List α) (a b : ℤ) : List α :=
  let n : ℤ := l.length
  let conv : ℤ → ℕ := fun i => (if i < 0 then max (n + i) 0 else min i n).toNat
  (l.drop (conv a)).take (conv b - conv a)

/-- The `pagination` object of the detail-list responses. -/
structure Pagination where
  current_page : ℤ
  total_pages : ℤ
  total_records : ℕ
  per_page : ℤ
  has_next : Bool
  has_previous : Bool
deriving DecidableEq, Repr

/-- The search predicate of `api_total_applications_details`
(views.py:1277–1282): case-insensitive substring match against
`(record.get('loan_no', '') or '')` and `pan`; `.lower()` raises on a
truthy non-string value, and the `or` short-circuits. -/
def taSearchPred (search : Str) (r : Rec) : Except Unit Bool :=
  match lowerOrRaise (pyOr (pyGet r.loan_no (.str [])) (.str [])) with
  | .error e => .error e
  | .ok ln =>
    if strContains ln (pyLower search) then .ok true
    else
      match lowerOrRaise (pyOr (pyGet r.pan (.str [])) (.str [])) with
      | .error e => .error e
      | .ok pn => .ok (strContains pn (pyLower search))

/-- `%d/%m/%Y` rendering of a date ordinal. -/
def fmtDMY (o : ℤ) : Str :=
  let d := (o % 100).toNat
  let m := ((o / 100) % 100).toNat
  let y := (o / 10000).toNat
  (if d < 10 then '0' :: natDigits d else natDigits d) ++
    '/' :: ((if m < 10 then '0' :: natDigits m else natDigits m) ++
      '/' :: natDigits y)

/-- `parse_datetime_safely(v).strftime('%d/%m/%Y') if v else ''`
(views.py:1311 etc.): an unguarded `.strftime` on a `None` parse result
raises `AttributeError`. -/
def fmtDateUnguarded (v : Value) : Except Unit Str :=
  if pyTruthy v then
    match parse_datetime_safely v with
    | some d => .ok (fmtDMY d)
    | Option.none => .error ()
  else .ok []

/-- The guarded variant of `api_dpd_bucket_details` (views.py:1103–1113):
a failed parse yields the empty string instead of raising. -/
def fmtDateGuarded (v : Value) : Str :=
  if pyTruthy v then
    match parse_datetime_safely v with
    | some d => fmtDMY d
    | Option.none => []
  else []

/-- One formatted row of `api_total_applications_details`
(views.py:1307–1322). -/
structure TARow where
  loan_no : Value
  pan : Str
  disbursal_date : Str
  loan_amount : ℚ
  net_disbursal : ℚ
  tenure : Value
  repayment_date : Str
  repayment_amount : ℚ
  processing_fee : ℚ
  interest_amount : ℚ
  last_received_date : Str
  total_received : ℚ
  closed_status : Value
deriving DecidableEq, Repr

/-- Format one record for `api_total_applications_details`; the `pan`
upper-casing and the unguarded date formats can raise. -/
def fmtTA (r : Rec) : Except Unit TARow :=
  match upperOrRaise (pyOr (pyGet r.pan (.str [])) (.str [])) with
  | .error e => .error e
  | .ok pan =>
    match fmtDateUnguarded (pyGetNone r.disbursal_date) with
    | .error e => .error e
    | .ok dd =>
      match fmtDateUnguarded (pyGetNone r.repayment_date) with
      | .error e => .error e
      | .ok rd =>
        match fmtDateUnguarded (pyGetNone r.last_received_date) with
        | .error e => .error e
        | .ok lrd =>
          .ok
            { loan_no := pyGet r.loan_no (.str [])
              pan := pan
              disbursal_date := dd
              loan_amount := safe_decimal_conversion (pyGetNone r.loan_amount)
              net_disbursal := safe_decimal_conversion (pyGetNone r.net_disbursal)
              tenure := pyGet r.tenure (.str [])
              repayment_date := rd
              repayment_amount := safe_decimal_conversion (pyGetNone r.repayment_amount)
              processing_fee := safe_decimal_conversion (pyGetNone r.processing_fee)
              interest_amount := safe_decimal_conversion (pyGetNone r.interest_amount)
              last_received_date := lrd
              total_received := safe_decimal_conversion (pyGetNone r.total_received)
              closed_status := pyGet r.closed_status (.str []) }

/-- The `totals` object of `api_total_applications_details`
(views.py:1290–1297). -/
structure TATotals where
  total_loan_amount : ℚ
  total_net_disbursal : ℚ
  total_repayment_amount : ℚ
  total_processing_fee : ℚ
  total_interest_amount : ℚ
  total_received : ℚ
deriving DecidableEq, Repr

/-- The response of `api_total_applications_details`. -/
structure TARes where
  records : List TARow
  pagination : Pagination
  totals : TATotals

/-- Filter + search + conditional sort of `api_total_applications_details`
(views.py:1274–1287): the sort runs only when the list is non-empty and the
first record has the `sort_by` key. -/
def taSorted (fp : FilterParams) (dp : DetailParams) (l : List Rec) :
    Except Unit (List Rec) :=
  match apply_fraud_filters fp l with
  | .error e => .error e
  | .ok fl =>
    match (if ¬ dp.search.isEmpty then pyFilterE (taSearchPred dp.search) fl else .ok fl) with
    | .error e => .error e
    | .ok sl =>
      match sl with
      | [] => .ok []
      | r0 :: _ =>
        if recHasKey r0 dp.sort_by then
          pySortByValue (fun x => pyGet (recField x dp.sort_by) (.str []))
            (dp.sort_order = "desc".toList) sl
        else .ok sl

/-- `api_total_applications_details` (views.py:1254–1372) from the raw
snapshot records: fraud filters, search, conditional sort, full-set totals,
then an unclamped slice `[(page-1)*per_page : page*per_page]` and
`total_pages = (total_records + per_page - 1) // per_page` (`per_page = 0`
raises `ZeroDivisionError`). -/
def api_total_applications_details (fp : FilterParams) (dp : DetailParams)
    (l : List Rec) : Except Unit TARes :=
  match taSorted fp dp l with
  | .error e => .error e
  | .ok sorted =>
    let totals : TATotals :=
      { total_loan_amount := sumSafe Rec.loan_amount sorted
        total_net_disbursal := sumSafe Rec.net_disbursal sorted
        total_repayment_amount := sumSafe Rec.repayment_amount sorted
        total_processing_fee := sumSafe Rec.processing_fee sorted
        total_interest_amount := sumSafe Rec.interest_amount sorted
        total_received := sumSafe Rec.total_received sorted }
    let total_records := sorted.length
    let start_index := (dp.page - 1) * dp.per_page
    let end_index := start_index + dp.per_page
    let paginated := pySliceInt sorted start_index end_index
    match pyMapE fmtTA paginated with
    | .error e => .error e
    | .ok rows =>
      if dp.per_page = 0 then .error ()
      else
        let total_pages := Int.fdiv ((total_records : ℤ) + dp.per_page - 1) dp.per_page
        .ok
          { records := rows
            pagination :=
              { current_page := dp.page
                total_pages := total_pages
                total_records := total_records
                per_page := dp.per_page
                has_next := decide (dp.page < total_pages)
                has_previous := decide (dp.page > 1) }
            totals := totals }

/-- The search predicate of `api_dpd_bucket_details` (views.py:1066–1072):
`str()`-coerced, so it never raises. -/
def dpdSearchPred (search : Str) (r : Rec) : Bool :=
  strContains (pyLower (pyStr (pyGet r.loan_no (.str [])))) (pyLower search) ||
    strContains (pyLower (pyStr (pyGet r.pan (.str [])))) (pyLower search)

/-- `float(x)` on a dictionary value, modelled like `Decimal(str(x))`
(the accepted numeric strings differ only in specials such as `inf`,
outside the model). -/
def pyFloat (v : Value) : Option ℚ := decimalStr v

/-- The sort stage of `api_dpd_bucket_details` (views.py:1078–1087): one of
four whitelisted keys, each precomputed for every element (so a bad value
raises even for a single-element list); any other `sort_by` leaves the list
unsorted. -/
def dpdSortStage (sort_by sort_order : Str) (l : List Rec) : Except Unit (List Rec) :=
  let desc := sort_order = "desc".toList
  if sort_by = "overdue_days".toList then
    match pyMapE (fun r => match pyInt (pyGet r.overdue_days (.int 0)) with
        | some n => .ok n
        | Option.none => .error ()) l with
    | .error e => .error e
    | .ok _ =>
      .ok (l.mergeSort fun a b =>
        let ka := (pyInt (pyGet a.overdue_days (.int 0))).getD 0
        let kb := (pyInt (pyGet b.overdue_days (.int 0))).getD 0
        if desc then decide (kb ≤ ka) else decide (ka ≤ kb))
  else if sort_by = "net_disbursal".toList then
    match pyMapE (fun r => match pyFloat (pyGet r.net_disbursal (.int 0)) with
        | some q => .ok q
        | Option.none => .error ()) l with
    | .error e => .error e
    | .ok _ =>
      .ok (l.mergeSort fun a b =>
        let ka := (pyFloat (pyGet a.net_disbursal (.int 0))).getD 0
        let kb := (pyFloat (pyGet b.net_disbursal (.int 0))).getD 0
        if desc then decide (kb ≤ ka) else decide (ka ≤ kb))
  else if sort_by = "repayment_amount".toList then
    match pyMapE (fun r => match pyFloat (pyGet r.repayment_amount (.int 0)) with
        | some q => .ok q
        | Option.none => .error ()) l with
    | .error e => .error e
    | .ok _ =>
      .ok (l.mergeSort fun a b =>
        let ka := (pyFloat (pyGet a.repayment_amount (.int 0))).getD 0
        let kb := (pyFloat (pyGet b.repayment_amount (.int 0))).getD 0
        if desc then decide (kb ≤ ka) else decide (ka ≤ kb))
  else if sort_by = "loan_no".toList then
    .ok (l.mergeSort fun a b =>
      let ka := pyStr (pyGet a.loan_no (.str []))
      let kb := pyStr (pyGet b.loan_no (.str []))
      if desc then ¬ strLt ka kb else ¬ strLt kb ka)
  else .ok l

/-- One formatted row of `api_dpd_bucket_details` (views.py:1115–1124);
the `float()` and `int()` coercions can raise, the dates are guarded. -/
structure DpdRow where
  loan_no : Value
  pan : Str
  disbursal_date : Str
  net_disbursal : ℚ
  repayment_date : Str
  repayment_amount : ℚ
  overdue_days : ℤ
  dpd_bucket : Value
deriving DecidableEq, Repr

/-- Format one record for `api_dpd_bucket_details`. -/
def fmtDpd (r : Rec) : Except Unit DpdRow :=
  match pyFloat (pyGet r.net_disbursal (.int 0)) with
  | Option.none => .error ()
  | some nd =>
    match pyFloat (pyGet r.repayment_amount (.int 0)) with
    | Option.none => .error ()
    | some ra =>
      match pyInt (pyGet r.overdue_days (.int 0)) with
      | Option.none => .error ()
      | some od =>
        .ok
          { loan_no := pyGet r.loan_no (.str [])
            pan := if pyTruthy (pyGetNone r.pan) then pyUpper (pyStr (pyGet r.pan (.str []))) else []
            disbursal_date := fmtDateGuarded (pyGetNone r.disbursal_date)
            net_disbursal := nd
            repayment_date := fmtDateGuarded (pyGetNone r.repayment_date)
            repayment_amount := ra
            overdue_days := od
            dpd_bucket := pyGet r.dpd_bucket (.str []) }

/-- The `totals` object of `api_dpd_bucket_details` (views.py:1074–1076). -/
structure DpdTotals where
  total_net_disbursal : ℚ
  total_repayment_amount : ℚ
deriving DecidableEq, Repr

/-- The response of `api_dpd_bucket_details`. -/
structure DpdRes where
  records : List DpdRow
  pagination : Pagination
  totals : DpdTotals

/-- Fraud filter + exact DPD-bucket filter + search of
`api_dpd_bucket_details` (views.py:1060–1072). -/
def dpdFiltered (fp : FilterParams) (dp : DetailParams) (bucket : Str) (l : List Rec) :
    Except Unit (List Rec) :=
  match apply_fraud_filters fp l with
  | .error e => .error e
  | .ok fl =>
    let bl := fl.filter fun r => valueEqStr (pyGetNone r.dpd_bucket) bucket
    .ok (if ¬ dp.search.isEmpty then bl.filter (dpdSearchPred dp.search) else bl)

/-- `api_dpd_bucket_details` (views.py:1038–1145) from the raw snapshot
records.  A falsy `dpd_bucket` parameter is the endpoint's early 400
rejection, collapsed into the error case here.  Pagination neither clamps
nor errors on an out-of-range page, and
`total_pages = (total_records + per_page - 1) // per_page if total_records > 0
else 1`. -/
def api_dpd_bucket_details (fp : FilterParams) (dp : DetailParams) (bucket : Str)
    (l : List Rec) : Except Unit DpdRes :=
  if bucket.isEmpty then .error ()
  else
    match dpdFiltered fp dp bucket l with
    | .error e => .error e
    | .ok searched =>
      match (if searched.all fun r =>
            fraudFieldOk r.net_disbursal && fraudFieldOk r.repayment_amount then
          .ok (sumDec0 Rec.net_disbursal searched, sumDec0 Rec.repayment_amount searched)
        else (.error () : Except Unit (ℚ × ℚ))) with
      | .error e => .error e
      | .ok totals =>
        match dpdSortStage dp.sort_by dp.sort_order searched with
        | .error e => .error e
        | .ok sorted =>
          let total_records := sorted.length
          match (if 0 < total_records then
              (if dp.per_page = 0 then (.error () : Except Unit ℤ)
               else .ok (Int.fdiv ((total_records : ℤ) + dp.per_page - 1) dp.per_page))
            else .ok 1) with
          | .error e => .error e
          | .ok total_pages =>
            let start_idx := (dp.page - 1) * dp.per_page
            let end_idx := start_idx + dp.per_page
            let page_records := pySliceInt sorted start_idx end_idx
            match pyMapE fmtDpd page_records with
            | .error e => .error e
            | .ok rows =>
              .ok
                { records := rows
                  pagination :=
                    { current_page := dp.page
                      total_pages := total_pages
                      total_records := total_records
                      per_page := dp.per_page
                      has_next := decide (dp.page < total_pages)
                      has_previous := decide (dp.page > 1) }
                  totals := { total_net_disbursal := totals.1
                              total_repayment_amount := totals.2 } }


/-- `sorted(set(...))` over raw dictionary values: deduplicate, then sort;
mixing numbers with strings (or any `None`) raises `TypeError` once there
are two or more distinct values. -/
def sortedUniqueE (vs : List Value) : Except Unit (List Value) :=
  let s := vs.dedup
  if s.length ≤ 1 then .ok s
  else if s.all fun v => keyKind v = 0 then
    .ok (s.mergeSort fun a b => decide (keyNum a ≤ keyNum b))
  else if s.all fun v => keyKind v = 1 then
    .ok (s.mergeSort fun a b => ¬ strLt (keyStr b) (keyStr a))
  else .error ()

/-- Python `s.split(c)`. -/
def splitOnChar (c : Char) : Str → List Str
  | [] => [[]]
  | a :: t =>
    match splitOnChar c t with
    | [] => [[a]]
    | h :: rest => if a = c then [] :: h :: rest else (a :: h) :: rest

/-- `int(s)` on a string. -/
def pyIntStr (s : Str) : Option ℤ := pyInt (.str s)

/-- `n <= value` on a dictionary value (`TypeError` on non-numbers). -/
def pyLeIntV (n : ℤ) (v : Value) : Option Bool :=
  match v with
  | .int m => some (decide (n ≤ m))
  | .rat q => some (decide ((n : ℚ) ≤ q))
  | .bool b => some (decide (n ≤ if b then 1 else 0))
  | _ => Option.none

/-- `value <= n` on a dictionary value. -/
def pyLeVInt (v : Value) (n : ℤ) : Option Bool :=
  match v with
  | .int m => some (decide (m ≤ n))
  | .rat q => some (decide (q ≤ (n : ℚ)))
  | .bool b => some (decide ((if b then 1 else 0 : ℤ) ≤ n))
  | _ => Option.none

/-- `value == n` for an integer literal (total; numbers compare by value). -/
def valueEqInt (v : Value) (n : ℤ) : Bool :=
  match v with
  | .int m => m = n
  | .rat q => q = (n : ℚ)
  | .bool b => (if b then 1 else 0 : ℤ) = n
  | _ => false

/-- The chained comparison `min_tenure <= r.get('tenure', 0) <= max_tenure`
(views.py:2457): short-circuits, raises `TypeError` on a non-numeric
tenure. -/
def tenurePredE (mn mx : ℤ) (r : Rec) : Except Unit Bool :=
  match pyLeIntV mn (pyGet r.tenure (.int 0)) with
  | Option.none => .error ()
  | some false => .ok false
  | some true =>
    match pyLeVInt (pyGet r.tenure (.int 0)) mx with
    | Option.none => .error ()
    | some b => .ok b

/-- The tenure filter of `api_disbursal_summary` (views.py:2452–2462): an
unparseable filter value is swallowed (`except (ValueError, AttributeError):
pass`), but a record with a non-numeric tenure raises `TypeError` in the
range form. -/
def tenureStage (tf : Str) (l : List Rec) : Except Unit (List Rec) :=
  if tf.contains '-' then
    match splitOnChar '-' tf with
    | [a, b] =>
      match pyIntStr a, pyIntStr b with
      | some mn, some mx => pyFilterE (tenurePredE mn mx) l
      | _, _ => .ok l
    | _ => .ok l
  else
    match pyIntStr tf with
    | some tv => .ok (l.filter fun r => valueEqInt (pyGet r.tenure (.int 0)) tv)
    | Option.none => .ok l

/-- The query parameters of `api_disbursal_summary` after its own
validation: `startDate`/`endDate` have been checked as `%Y-%m-%d` (else the
endpoint 400s before any record work) and `page` has already been `int()`d
with its local `except` mapping garbage to 1. -/
structure DisParams where
  startO : ℤ
  endO : ℤ
  state : Option Str := Option.none
  city : Option Str := Option.none
  reloan : Option Str := Option.none
  tenure : Option Str := Option.none
  page : ℤ := 1
deriving DecidableEq, Repr

/-- The date filter of `api_disbursal_summary` (views.py:2410–2418). -/
def disDatePred (startO endO : ℤ) (r : Rec) : Bool :=
  pyTruthy (pyGetNone r.disbursal_date) &&
    match parse_datetime_safely (pyGetNone r.disbursal_date) with
    | some d => decide (startO ≤ d) && decide (d ≤ endO)
    | Option.none => false

/-- The `summary` object of `api_disbursal_summary` (views.py:2567–2588). -/
structure DisSummary where
  total_records : ℕ
  total_loan_amount : ℚ
  total_disbursal_amount : ℚ
  total_repayment_amount : ℚ
  total_processing_fee : ℚ
  total_interest_amount : ℚ
  closed_count : ℕ
  open_count : ℕ
  reloan_count : ℕ
  fresh_count : ℕ
  fresh_loan_amount : ℚ
  fresh_disbursal_amount : ℚ
  fresh_repayment_amount : ℚ
  fresh_processing_fee : ℚ
  fresh_interest_amount : ℚ
  reloan_loan_amount : ℚ
  reloan_disbursal_amount : ℚ
  reloan_repayment_amount : ℚ
  reloan_processing_fee : ℚ
  reloan_interest_amount : ℚ

/-- The response of `api_disbursal_summary` (the chart garnish, which can
never raise, is not carried). -/
structure DisRes where
  records : List Rec
  summary : DisSummary
  pagination : Pagination

/-- `api_disbursal_summary` (views.py:2370–2614) from the raw upstream
records: date-bound filter, dropdown-option sorts (which can raise on
mixed-type values), hierarchical state/city filters, reloan and tenure
filters, full-set summary, then pagination that clamps `page < 1` to 1 and
`page > total_pages` to the last page, with
`total_pages = (n + 9) // 10 if n > 0 else 1` at `per_page = 10`. -/
def api_disbursal_summary (p : DisParams) (l : List Rec) : Except Unit DisRes :=
  let dateFiltered := l.filter (disDatePred p.startO p.endO)
  match sortedUniqueE ((dateFiltered.map fun r => pyGetNone r.state).filter pyTruthy) with
  | .error e => .error e
  | .ok _ =>
  match sortedUniqueE ((dateFiltered.map fun r => pyGetNone r.city).filter pyTruthy) with
  | .error e => .error e
  | .ok _ =>
  let r1 :=
    if paramTruthy p.state then
      dateFiltered.filter fun r => valueEqStr (pyGetNone r.state) (paramVal p.state)
    else dateFiltered
  match (if paramTruthy p.state then
      sortedUniqueE ((r1.map fun r => pyGetNone r.city).filter pyTruthy)
    else .ok []) with
  | .error e => .error e
  | .ok _ =>
  match (if paramTruthy p.city then pyFilterE (cityPredE (paramVal p.city)) r1 else .ok r1) with
  | .error e => .error e
  | .ok r2 =>
  let r3 :=
    if paramTruthy p.reloan then
      if pyLower (paramVal p.reloan) = "true".toList then
        r2.filter fun r => valueEqBool (pyGet r.is_reloan_case (.bool false)) true
      else if pyLower (paramVal p.reloan) = "false".toList then
        r2.filter fun r => valueEqBool (pyGet r.is_reloan_case (.bool false)) false
      else r2
    else r2
  match (if paramTruthy p.tenure then tenureStage (paramVal p.tenure) r3 else .ok r3) with
  | .error e => .error e
  | .ok fr =>
    let total_records := fr.length
    let fresh_records := fr.filter fun r => ¬ pyTruthy (pyGet r.is_reloan_case (.bool false))
    let reloan_records := fr.filter fun r => pyTruthy (pyGet r.is_reloan_case (.bool false))
    let closed_count := (fr.filter fun r => pyTruthy (pyGet r.is_lead_closed (.bool false))).length
    let summary : DisSummary :=
      { total_records := total_records
        total_loan_amount := sumSafe0 Rec.loan_amount fr
        total_disbursal_amount := sumSafe0 Rec.disbursal_amt fr
        total_repayment_amount := sumSafe0 Rec.repayment_amount fr
        total_processing_fee := sumSafe0 Rec.processing_fee fr
        total_interest_amount := sumSafe0 Rec.interest_amount fr
        closed_count := closed_count
        open_count := total_records - closed_count
        reloan_count := reloan_records.length
        fresh_count := total_records - reloan_records.length
        fresh_loan_amount := sumSafe0 Rec.loan_amount fresh_records
        fresh_disbursal_amount := sumSafe0 Rec.disbursal_amt fresh_records
        fresh_repayment_amount := sumSafe0 Rec.repayment_amount fresh_records
        fresh_processing_fee := sumSafe0 Rec.processing_fee fresh_records
        fresh_interest_amount := sumSafe0 Rec.interest_amount fresh_records
        reloan_loan_amount := sumSafe0 Rec.loan_amount reloan_records
        reloan_disbursal_amount := sumSafe0 Rec.disbursal_amt reloan_records
        reloan_repayment_amount := sumSafe0 Rec.repayment_amount reloan_records
        reloan_processing_fee := sumSafe0 Rec.processing_fee reloan_records
        reloan_interest_amount := sumSafe0 Rec.interest_amount reloan_records }
    let page1 := if p.page < 1 then 1 else p.page
    let total_pages : ℤ :=
      if 0 < total_records then Int.fdiv ((total_records : ℤ) + 10 - 1) 10 else 1
    let page2 := if page1 > total_pages ∧ total_pages > 0 then total_pages else page1
    let start_idx := (page2 - 1) * 10
    let end_idx := start_idx + 10
    .ok
      { records := pySliceInt fr start_idx end_idx
        summary := summary
        pagination :=
          { current_page := page2
            total_pages := total_pages
            total_records := total_records
            per_page := 10
            has_next := decide (page2 < total_pages)
            has_previous := decide (page2 > 1) } }


/-- Does any scalar field of the KPI result equal `q`?  (`false` when the
computation raised.) -/
def kpiContains (q : ℚ) : Except Unit Kpi → Bool
  | .ok k => (kpiFieldVals k).contains q
  | .error _ => false

/-- C1 counterexample record: never collected (`no last_received_date`,
`total_received == 0`) but already `Closed`, with 55 of net disbursal. -/
def c1rec1 : Rec :=
  { net_disbursal := .int 55, total_received := .int 0,
    closed_status := .str "Closed".toList, loan_amount := .int 0,
    repayment_amount := .int 0 }

/-- C1 counterexample record: collected before (has a last_received_date). -/
def c1rec2 : Rec :=
  { net_disbursal := .int 7, total_received := .int 0,
    last_received_date := .str "2024-01-01".toList,
    closed_status := .str "Closed".toList }

/-- The C1 counterexample record set. -/
def c1ex : List Rec := [c1rec1, c1rec2]

/-- C2 counterexample record: a malformed (null) `overdue_days`. -/
def c2bad : Rec :=
  { loan_amount := .int 1000, net_disbursal := .int 900,
    repayment_amount := .int 1100, total_received := .int 0,
    overdue_days := Value.none }

/-- C2 witness record: integer-string `overdue_days`, garbage elsewhere. -/
def c2good : Rec :=
  { loan_amount := .str "junk".toList, net_disbursal := Value.none,
    repayment_amount := .str "nan".toList, total_received := .int 5,
    overdue_days := .str "45".toList }

/-- C3 counterexample record: `reloan_status` outside both Predicate-B
buckets. -/
def c3bad : TypedRec :=
  { loan_amount := 5, net_disbursal := 4, repayment_amount := 6,
    total_received := 1, reloan_status := "Unknown".toList,
    closed_status := "Active".toList }

/-- C3 witness typed records: one `Freash`, one `Reloan`. -/
def c3wT : List TypedRec :=
  [{ loan_amount := 5, net_disbursal := 4, repayment_amount := 6,
     total_received := 1, reloan_status := "Freash".toList,
     closed_status := "Not Closed".toList },
   { loan_amount := 8, net_disbursal := 7, repayment_amount := 9,
     total_received := 2, reloan_status := "Reloan".toList,
     closed_status := "Closed".toList }]

/-- C3 witness raw records for the Predicate-A and Predicate-B families. -/
def c3wR : List Rec :=
  [{ loan_amount := .int 5, net_disbursal := .int 4,
     repayment_amount := .int 6, total_received := .int 1,
     reloan_status := .str "Freash".toList,
     closed_status := .str "Not Closed".toList },
   { loan_amount := .int 8, net_disbursal := .int 7,
     repayment_amount := .int 9, total_received := .int 2,
     reloan_status := .str "Reloan".toList,
     closed_status := .str "Closed".toList }]

/-- C4 counterexample record: negative repayment amount, not closed. -/
def c4rec : Rec :=
  { repayment_amount := .int (-100), total_received := .int 0,
    closed_status := .str "Not Closed".toList }

/-- C5/C9 single plain record for pagination examples. -/
def c5rec : Rec :=
  { loan_no := .str "L1".toList, pan := .str "p1".toList,
    disbursal_date := .str "2024-01-02".toList,
    repayment_date := .str "2024-02-02".toList,
    loan_amount := .int 10, net_disbursal := .int 9,
    repayment_amount := .int 11, total_received := .int 0,
    overdue_days := .int 3, dpd_bucket := .str "0-30".toList,
    state := .str "S".toList, city := .str "C".toList }

/-- C10 witness parameters: a lone closing-status filter. -/
def c10p : FilterParams := { closing_status := some "Not Closed".toList }

/-- C5 counterexample filters: none. -/
def c5fp : FilterParams := {}

/-- C5 first-page detail parameters (unsortable key skips the sort). -/
def c5dp1 : DetailParams := { page := 1, sort_by := "zzz".toList }

/-- C5 out-of-range detail parameters: page 2 of a one-record set. -/
def c5dp2 : DetailParams := { page := 2, sort_by := "zzz".toList }

/-- C5 disbursal-summary parameters: page 5 of an empty set. -/
def c5disp : DisParams := { startO := 0, endO := 0, page := 5 }

/-- C9 detail parameters: all defaults (page 1, per_page 20). -/
def c9dp : DetailParams := {}

/-- C6 witness record, repeated 20 times: Mumbai, half collected. -/
def c6a : Rec :=
  { city := .str "Mumbai".toList, repayment_amount := .int 1000,
    total_received := .int 500 }

/-- C6 witness record: a city with a single application. -/
def c6b : Rec :=
  { city := .str "Pune".toList, repayment_amount := .int 1000,
    total_received := .int 1000 }

/-- C6 witness record set: 20 Mumbai applications and one Pune one. -/
def c6ex : List Rec := List.replicate 20 c6a ++ [c6b]

/-- The aggregated Mumbai group of `c6ex`. -/
def c6g : CityGroup := ⟨.str "Mumbai".toList, 10000, 20000, 20⟩

/-!
## Theorems

General lemmas first, then one theorem per claim (with witness or
counterexample theorems where required).
-/

section BridgeLemmas

theorem qadd_eq (a b : ℚ) : qadd a b = a + b := by
  have ha : ((a.den : ℚ)) ≠ 0 := Nat.cast_ne_zero.mpr a.den_nz
  have hb : ((b.den : ℚ)) ≠ 0 := Nat.cast_ne_zero.mpr b.den_nz
  rw [qadd, Rat.mkRat_eq_div]
  conv_rhs => rw [← Rat.num_div_den a, ← Rat.num_div_den b]
  field_simp
  try ring

theorem qsub_eq (a b : ℚ) : qsub a b = a - b := by
  have ha : ((a.den : ℚ)) ≠ 0 := Nat.cast_ne_zero.mpr a.den_nz
  have hb : ((b.den : ℚ)) ≠ 0 := Nat.cast_ne_zero.mpr b.den_nz
  rw [qsub, Rat.mkRat_eq_div]
  conv_rhs => rw [← Rat.num_div_den a, ← Rat.num_div_den b]
  field_simp
  try ring

theorem qmul_eq (a b : ℚ) : qmul a b = a * b := by
  have ha : ((a.den : ℚ)) ≠ 0 := Nat.cast_ne_zero.mpr a.den_nz
  have hb : ((b.den : ℚ)) ≠ 0 := Nat.cast_ne_zero.mpr b.den_nz
  rw [qmul, Rat.mkRat_eq_div]
  conv_rhs => rw [← Rat.num_div_den a, ← Rat.num_div_den b]
  field_simp
  try ring

theorem qdiv_eq (a b : ℚ) : qdiv a b = a / b := by
  rcases eq_or_ne b 0 with hb0 | hb0
  · subst hb0
    simp [qdiv, Rat.mkRat_eq_div]
  · have hbnum : b.num ≠ 0 := Rat.num_ne_zero.mpr hb0
    have ha : ((a.den : ℚ)) ≠ 0 := Nat.cast_ne_zero.mpr a.den_nz
    have hb : ((b.den : ℚ)) ≠ 0 := Nat.cast_ne_zero.mpr b.den_nz
    have hbq : ((b.num : ℚ)) ≠ 0 := Int.cast_ne_zero.mpr hbnum
    rcases lt_or_le b.num 0 with hneg | hpos
    · rw [qdiv, if_pos hneg, Rat.mkRat_eq_div]
      push_cast [Int.cast_natAbs]
      rw [abs_of_neg (show ((b.num : ℚ)) < 0 by exact_mod_cast hneg)]
      conv_rhs => rw [← Rat.num_div_den a, ← Rat.num_div_den b]
      field_simp
      try ring
    · rw [qdiv, if_neg (not_lt.mpr hpos), Rat.mkRat_eq_div]
      push_cast [Int.cast_natAbs]
      rw [abs_of_nonneg (show (0 : ℚ) ≤ (b.num : ℚ) by exact_mod_cast hpos)]
      conv_rhs => rw [← Rat.num_div_den a, ← Rat.num_div_den b]
      field_simp
      try ring

theorem sumQ_eq (l : List ℚ) : sumQ l = l.sum := by
  induction l with
  | nil => rfl
  | cons a t ih => simp [sumQ, List.foldr, qadd_eq, ih.symm, List.sum_cons, sumQ]

end BridgeLemmas


theorem sumQ_map_filter_add (g : α → ℚ) (p : α → Bool) (l : List α) :
    sumQ ((l.filter p).map g) + sumQ ((l.filter fun a => !p a).map g) = sumQ (l.map g) := by
  simp only [sumQ_eq]
  induction l with
  | nil => simp
  | cons a t ih =>
    by_cases h : p a
    · simp only [List.filter_cons, h, Bool.not_true, if_pos, if_neg, Bool.false_eq_true,
        ite_false, ite_true, List.map_cons, List.sum_cons]
      linarith
    · have h' : p a = false := by simp [h]
      simp only [List.filter_cons, h', Bool.not_false, Bool.false_eq_true, ite_false, ite_true,
        List.map_cons, List.sum_cons]
      linarith

theorem length_filter_add (p : α → Bool) (l : List α) :
    (l.filter p).length + (l.filter fun a => !p a).length = l.length := by
  induction l with
  | nil => simp
  | cons a t ih =>
    by_cases h : p a
    · simp [List.filter_cons, h]
      omega
    · simp [List.filter_cons, h]
      omega

theorem sumQ_map_filter_partition (g : α → ℚ) (p q : α → Bool) :
    ∀ l : List α, (∀ a ∈ l, p a ∨ q a) → (∀ a ∈ l, ¬(p a ∧ q a)) →
      sumQ ((l.filter p).map g) + sumQ ((l.filter q).map g) = sumQ (l.map g) := by
  intro l
  simp only [sumQ_eq]
  induction l with
  | nil => intro _ _; simp
  | cons a t ih =>
    intro hcov hdisj
    have ht := ih (fun x hx => hcov x (List.mem_cons_of_mem a hx))
      (fun x hx => hdisj x (List.mem_cons_of_mem a hx))
    rcases hcov a (List.mem_cons_self a t) with hp | hq
    · have hq' : q a = false := by
        cases hqa : q a
        · rfl
        · exact absurd ⟨hp, hqa⟩ (hdisj a (List.mem_cons_self a t))
      simp [List.filter_cons, hp, hq']
      linarith
    · have hp' : p a = false := by
        cases hpa : p a
        · rfl
        · exact absurd ⟨hpa, hq⟩ (hdisj a (List.mem_cons_self a t))
      simp [List.filter_cons, hp', hq]
      linarith

theorem length_filter_partition (p q : α → Bool) :
    ∀ l : List α, (∀ a ∈ l, p a ∨ q a) → (∀ a ∈ l, ¬(p a ∧ q a)) →
      (l.filter p).length + (l.filter q).length = l.length := by
  intro l
  induction l with
  | nil => intro _ _; simp
  | cons a t ih =>
    intro hcov hdisj
    have ht := ih (fun x hx => hcov x (List.mem_cons_of_mem a hx))
      (fun x hx => hdisj x (List.mem_cons_of_mem a hx))
    rcases hcov a (List.mem_cons_self a t) with hp | hq
    · have hq' : q a = false := by
        cases hqa : q a
        · rfl
        · exact absurd ⟨hp, hqa⟩ (hdisj a (List.mem_cons_self a t))
      simp [List.filter_cons, hp, hq']
      omega
    · have hp' : p a = false := by
        cases hpa : p a
        · rfl
        · exact absurd ⟨hpa, hq⟩ (hdisj a (List.mem_cons_self a t))
      simp [List.filter_cons, hp', hq]
      omega

theorem pyFilterE_sublist (p : α → Except Unit Bool) :
    ∀ l r, pyFilterE p l = .ok r → r.Sublist l := by
  intro l
  induction l with
  | nil =>
    intro r h
    simp only [pyFilterE] at h
    cases h
    exact List.Sublist.refl _
  | cons a t ih =>
    intro r h
    simp only [pyFilterE] at h
    cases hp : p a with
    | error e => rw [hp] at h; cases h
    | ok b =>
      rw [hp] at h
      cases hrec : pyFilterE p t with
      | error e => rw [hrec] at h; cases h
      | ok t' =>
        rw [hrec] at h
        cases h
        cases b with
        | true => exact List.Sublist.cons₂ a (ih t' hrec)
        | false => exact List.Sublist.cons a (ih t' hrec)


theorem natDigitsCore_shape :
    ∀ f n acc, 0 < f → n < 10 ^ f →
      ∃ d rest, natDigitsCore f n acc = digitChar d :: rest ∧ d < 10 := by
  intro f
  induction f with
  | zero => intro n acc h _; exact absurd h (lt_irrefl 0)
  | succ f ih =>
    intro n acc _ hn
    by_cases h10 : n < 10
    · exact ⟨n, acc, by simp [natDigitsCore, h10], h10⟩
    · have hf : 0 < f := by
        rcases Nat.eq_zero_or_pos f with h0 | h0
        · subst h0; simp at hn; omega
        · exact h0
      have hdiv : n / 10 < 10 ^ f := by
        have hlt : n < 10 * 10 ^ f := by
          have := hn
          rwa [pow_succ'] at this
        exact Nat.div_lt_of_lt_mul hlt
      obtain ⟨d, rest, heq, hd⟩ := ih (n / 10) (digitChar (n % 10) :: acc) hf hdiv
      exact ⟨d, rest, by simp [natDigitsCore, h10, heq], hd⟩

theorem natDigits_shape (n : ℕ) :
    ∃ d rest, natDigits n = digitChar d :: rest ∧ d < 10 := by
  have hlt : n < 10 ^ (n + 1) :=
    lt_of_lt_of_le (Nat.lt_pow_self (by norm_num) n)
      (Nat.pow_le_pow_right (by norm_num) (Nat.le_succ n))
  exact natDigitsCore_shape (n + 1) n [] (Nat.succ_pos n) hlt

theorem pyLower_head_ne (c : Char) (rest : Str) (k0 : Char) (ks : Str)
    (h : Char.toLower c ≠ k0) : pyLower (c :: rest) ≠ k0 :: ks := by
  intro hEq
  simp only [pyLower, List.map_cons, List.cons.injEq] at hEq
  exact h hEq.1

theorem numeric_head (s : Str)
    (hs : (∃ rest, s = '-' :: rest) ∨ ∃ d rest, s = digitChar d :: rest ∧ d < 10) :
    pyLower s ≠ "nan".toList ∧ pyLower s ≠ "null".toList ∧ pyLower s ≠ "none".toList := by
  rcases hs with ⟨rest, hm⟩ | ⟨d, rest, hm, hd⟩
  · subst hm
    refine ⟨pyLower_head_ne _ _ _ _ ?_, pyLower_head_ne _ _ _ _ ?_, pyLower_head_ne _ _ _ _ ?_⟩
      <;> decide
  · subst hm
    interval_cases d <;>
      exact ⟨pyLower_head_ne _ _ _ _ (by decide), pyLower_head_ne _ _ _ _ (by decide),
        pyLower_head_ne _ _ _ _ (by decide)⟩

theorem pyStr_int_head (n : ℤ) :
    (∃ rest, pyStr (.int n) = '-' :: rest) ∨
      ∃ d rest, pyStr (.int n) = digitChar d :: rest ∧ d < 10 := by
  simp only [pyStr]
  by_cases hneg : n < 0
  · exact Or.inl ⟨natDigits n.natAbs, by simp [hneg]⟩
  · obtain ⟨d, rest, heq, hd⟩ := natDigits_shape n.natAbs
    exact Or.inr ⟨d, rest, by simp [hneg, heq], hd⟩

theorem pyStr_rat_head (q : ℚ) :
    (∃ rest, pyStr (.rat q) = '-' :: rest) ∨
      ∃ d rest, pyStr (.rat q) = digitChar d :: rest ∧ d < 10 := by
  simp only [pyStr]
  obtain ⟨d, rest, heq, hd⟩ := natDigits_shape q.num.natAbs
  by_cases hden : q.den = 1
  · by_cases hneg : q.num < 0
    · exact Or.inl ⟨natDigits q.num.natAbs, by simp [hden, hneg]⟩
    · exact Or.inr ⟨d, rest, by simp [hden, hneg, heq], hd⟩
  · by_cases hneg : q.num < 0
    · exact Or.inl ⟨natDigits q.num.natAbs ++ '/' :: natDigits q.den, by simp [hden, hneg]⟩
    · exact Or.inr ⟨d, rest ++ '/' :: natDigits q.den, by simp [hden, hneg, heq], hd⟩

/-- C7: `safe_decimal_conversion` is total and never raises: it returns 0
for `None`, the empty string, and the strings case-insensitively equal to
"nan"/"null"/"none"; otherwise it parses the value as a decimal number, and
on any parse failure it returns 0 — stated as pointwise agreement with
`toDecimalSpec`, the definition transcribed from the specification's words
(totality is the fact that both are Lean functions on all of `Value`). -/
theorem C7_safe_decimal_total :
    ∀ v : Value, safe_decimal_conversion v = toDecimalSpec v := by
  intro v
  cases v with
  | missing => rfl
  | none => rfl
  | bool b => cases b <;> rfl
  | str s =>
    simp only [safe_decimal_conversion, toDecimalSpec]
    by_cases hs : s = []
    · subst hs; rfl
    · have h1 : (Value.str s = Value.none ∨ Value.str s = Value.missing) = False := by
        simp
      have h2 : (Value.str s = Value.str []) ↔ s = [] := by simp
      simp [hs, h2, List.isEmpty_iff, pyStr]
  | int n =>
    obtain ⟨hnan, hnull, hnone⟩ := numeric_head _ (pyStr_int_head n)
    have hg : ¬(pyLower (pyStr (Value.int n)) = "nan".toList ∨
        pyLower (pyStr (Value.int n)) = "null".toList ∨
        pyLower (pyStr (Value.int n)) = "none".toList) := by
      rintro (h | h | h)
      exacts [hnan h, hnull h, hnone h]
    simp only [safe_decimal_conversion, toDecimalSpec]
    rw [if_neg (by simp), if_neg (by simp), if_neg hg]
  | rat q =>
    obtain ⟨hnan, hnull, hnone⟩ := numeric_head _ (pyStr_rat_head q)
    have hg : ¬(pyLower (pyStr (Value.rat q)) = "nan".toList ∨
        pyLower (pyStr (Value.rat q)) = "null".toList ∨
        pyLower (pyStr (Value.rat q)) = "none".toList) := by
      rintro (h | h | h)
      exacts [hnan h, hnull h, hnone h]
    simp only [safe_decimal_conversion, toDecimalSpec]
    rw [if_neg (by simp), if_neg (by simp), if_neg hg]


theorem dropWhile_cons_head (p : α → Bool) :
    ∀ (l : List α) (a : α) (t : List α), l.dropWhile p = a :: t → p a = false := by
  intro l
  induction l with
  | nil => intro a t h; cases h
  | cons x xs ih =>
    intro a t h
    by_cases hx : p x
    · rw [List.dropWhile_cons, if_pos hx] at h
      exact ih a t h
    · rw [List.dropWhile_cons, if_neg hx] at h
      cases h
      simpa using hx

theorem dropWhile_idem (p : α → Bool) (l : List α) :
    (l.dropWhile p).dropWhile p = l.dropWhile p := by
  cases h : l.dropWhile p with
  | nil => simp
  | cons a t =>
    rw [List.dropWhile_cons, if_neg]
    simp [dropWhile_cons_head p l a t h]

theorem rtrimQ_idem (l : Str) :
    ((((l.reverse.dropWhile isPySpace).reverse).reverse.dropWhile isPySpace)).reverse =
      (l.reverse.dropWhile isPySpace).reverse := by
  rw [List.reverse_reverse, dropWhile_idem]

theorem pyStrip_head_not_space (s : Str) :
    ∀ a t, s.dropWhile isPySpace = a :: t → isPySpace a = false :=
  dropWhile_cons_head isPySpace s

theorem pyStrip_idem (s : Str) : pyStrip (pyStrip s) = pyStrip s := by
  unfold pyStrip
  set x := s.dropWhile isPySpace with hx
  have hpre : (x.reverse.dropWhile isPySpace).reverse <+: x := by
    have hsuf : x.reverse.dropWhile isPySpace <:+ x.reverse := List.dropWhile_suffix _
    have := hsuf.reverse
    rwa [List.reverse_reverse] at this
  have hltrim : ((x.reverse.dropWhile isPySpace).reverse).dropWhile isPySpace =
      (x.reverse.dropWhile isPySpace).reverse := by
    cases hy : (x.reverse.dropWhile isPySpace).reverse with
    | nil => simp
    | cons c t =>
      rw [List.dropWhile_cons, if_neg]
      obtain ⟨u, hu⟩ := hpre
      rw [hy] at hu
      have hdw : s.dropWhile isPySpace = c :: (t ++ u) := by
        rw [← hx]
        simpa using hu.symm
      have := dropWhile_cons_head isPySpace s c (t ++ u) hdw
      simp [this]
  rw [hltrim, List.reverse_reverse, dropWhile_idem]


theorem normalize_city_result (s : Str) (hs : s ≠ []) :
    normalize_city_name (.str s) = .str "Delhi".toList ∨
    normalize_city_name (.str s) = .str "Mumbai".toList ∨
    normalize_city_name (.str s) = .str "Hyderabad".toList ∨
    (normalize_city_name (.str s) = .str (pyStrip s) ∧
      strContains (pyLower (pyStrip s)) "delhi".toList = false ∧
      strContains (pyLower (pyStrip s)) "mumbai".toList = false ∧
      strContains (pyLower (pyStrip s)) "medchal".toList = false ∧
      strContains (pyLower (pyStrip s)) "malkajgiri".toList = false) := by
  simp only [normalize_city_name, pyStr]
  rw [if_neg (by simp [pyTruthy, List.isEmpty_iff, hs])]
  by_cases h1 : strContains (pyLower (pyStrip s)) "delhi".toList
  · rw [if_pos h1]; exact Or.inl rfl
  · rw [if_neg h1]
    by_cases h2 : strContains (pyLower (pyStrip s)) "mumbai".toList
    · rw [if_pos h2]; exact Or.inr (Or.inl rfl)
    · rw [if_neg h2]
      by_cases h3 : strContains (pyLower (pyStrip s)) "medchal".toList ||
          strContains (pyLower (pyStrip s)) "malkajgiri".toList
      · rw [if_pos h3]; exact Or.inr (Or.inr (Or.inl rfl))
      · rw [if_neg h3]
        simp only [Bool.or_eq_true, not_or, Bool.not_eq_true] at h1 h2 h3
        exact Or.inr (Or.inr (Or.inr ⟨rfl, by simpa using h1, by simpa using h2,
          h3.1, h3.2⟩))

theorem normalize_city_fixed (t : Str)
    (h1 : strContains (pyLower t) "delhi".toList = false)
    (h2 : strContains (pyLower t) "mumbai".toList = false)
    (h3 : strContains (pyLower t) "medchal".toList = false)
    (h4 : strContains (pyLower t) "malkajgiri".toList = false)
    (hstrip : pyStrip t = t) :
    normalize_city_name (.str t) = .str t := by
  by_cases ht : t = []
  · subst ht; rfl
  · simp only [normalize_city_name, pyStr]
    rw [if_neg (by simp [pyTruthy, List.isEmpty_iff, ht]), hstrip]
    rw [if_neg (by simpa using h1), if_neg (by simpa using h2),
      if_neg (by
        simp only [Bool.or_eq_true, not_or, Bool.not_eq_true]
        exact ⟨h3, h4⟩)]

theorem normalize_city_idem (s : Str) :
    normalize_city_name (normalize_city_name (.str s)) = normalize_city_name (.str s) := by
  by_cases hs : s = []
  · subst hs; rfl
  · rcases normalize_city_result s hs with h | h | h | ⟨h, h1, h2, h3, h4⟩
    · rw [h]; decide
    · rw [h]; decide
    · rw [h]; decide
    · rw [h]
      exact normalize_city_fixed (pyStrip s) h1 h2 h3 h4 (pyStrip_idem s)

theorem assocGet_result (m : List (Str × Str)) (k d : Str) :
    assocGet m k d = d ∨ ∃ p ∈ m, assocGet m k d = p.2 := by
  induction m with
  | nil => exact Or.inl rfl
  | cons x t ih =>
    simp only [assocGet]
    by_cases hk : k = x.1
    · exact Or.inr ⟨x, List.mem_cons_self x t, by rw [if_pos hk]⟩
    · rw [if_neg hk]
      rcases ih with h | ⟨p, hp, h⟩
      · exact Or.inl h
      · exact Or.inr ⟨p, List.mem_cons_of_mem x hp, h⟩

theorem normalize_dpd_idem (s : Str) :
    normalize_dpd_bucket (normalize_dpd_bucket (.str s)) = normalize_dpd_bucket (.str s) := by
  by_cases hs : s = []
  · subst hs; rfl
  · have h1 : normalize_dpd_bucket (.str s) = .str (assocGet dpd_bucket_mapping s s) := by
      simp only [normalize_dpd_bucket]
      rw [if_neg (by simp [pyTruthy, List.isEmpty_iff, hs])]
    rw [h1]
    by_cases hvnil : assocGet dpd_bucket_mapping s s = []
    · simp only [normalize_dpd_bucket]
      rw [if_pos (by simp [pyTruthy, List.isEmpty_iff, hvnil])]
    · simp only [normalize_dpd_bucket]
      rw [if_neg (by simp [pyTruthy, List.isEmpty_iff, hvnil])]
      rcases assocGet_result dpd_bucket_mapping s s with h | ⟨p, hp, h⟩
      · rw [h]
        exact congrArg Value.str h
      · have hval : ∀ p ∈ dpd_bucket_mapping, assocGet dpd_bucket_mapping p.2 p.2 = p.2 := by
          decide
        rw [h]
        exact congrArg Value.str (hval p hp)

/-- C8: `normalize_city_name` and `normalize_dpd_bucket` are total over
strings (both are Lean functions defined on every `Value`, the empty string
and unmapped values passing through unchanged) and idempotent: applying
either twice to any string equals applying it once. -/
theorem C8_normalizers_idempotent :
    ∀ s : Str,
      normalize_city_name (normalize_city_name (.str s)) = normalize_city_name (.str s) ∧
        normalize_dpd_bucket (normalize_dpd_bucket (.str s)) = normalize_dpd_bucket (.str s) :=
  fun s => ⟨normalize_city_idem s, normalize_dpd_idem s⟩


/-- C1 counterexample: on the concrete two-record set `c1ex` the Variant A
sum (spec definition: net disbursal of never-collected records) is 55, yet
no field of the KPI mapping computed by `calculate_kpi_from_records` equals
55 — the KPI result does not contain a Variant A field. -/
theorem C1_counterexample :
    variantA_spec c1ex = 55 ∧
      kpiContains (variantA_spec c1ex) (calculate_kpi_from_records c1ex) = false := by
  constructor
  · decide
  · decide

/-- C1 (amended): the KPI calculator exposes only one principal-outstanding
definition, Variant B: whenever `calculate_kpi_from_records` returns a
result, its `principal_outstanding` field equals
`sum(net_disbursal) - sum(total_received)` over the records with
`closed_status == 'Not Closed'`; no field carries the Variant A
(no-collection) sum. -/
theorem C1_principal_outstanding_is_variantB :
    ∀ l : List Rec, (calculate_kpi_from_records l).map Kpi.principal_outstanding =
      (calculate_kpi_from_records l).map fun _ => variantB l := by
  intro l
  unfold calculate_kpi_from_records
  by_cases h0 : l.length = 0
  · rw [if_pos h0]
    have hnil : l = [] := List.length_eq_zero.mp h0
    subst hnil
    rfl
  · rw [if_neg h0]
    by_cases hall : l.all fun r => (overdueInt r).isSome
    · rw [if_pos hall]
      rfl
    · rw [if_neg hall]
      rfl

/-- C2 counterexample: a record whose `overdue_days` is `None` (a malformed
scalar) makes `calculate_kpi_from_records` raise — the
`int(r.get('overdue_days', 0))` coercion at views.py:188 — instead of
degrading to zero. -/
theorem C2_counterexample :
    (calculate_kpi_from_records [c2bad]).map kpiFieldVals = .error () := by
  decide

/-- C2 (amended): `calculate_kpi_from_records` never raises provided every
record's `overdue_days` is `int()`-convertible (an integer, a numeric
boolean/decimal, an integer string, or absent); all other malformed scalar
fields degrade to zero through `safe_decimal_conversion`.  The
`overdue_days` proviso is forced by the counterexample. -/
theorem C2_no_raise_when_overdue_intable :
    ∀ l : List Rec, (∀ r ∈ l, (overdueInt r).isSome) →
      (calculate_kpi_from_records l).isOk = true := by
  intro l h
  unfold calculate_kpi_from_records
  by_cases h0 : l.length = 0
  · rw [if_pos h0]; rfl
  · rw [if_neg h0, if_pos]
    · rfl
    · rw [List.all_eq_true]
      intro r hr
      exact h r hr

/-- C2 witness: a record with an integer-string `overdue_days` and garbage
in the other scalar fields is processed without raising. -/
theorem C2_witness : (calculate_kpi_from_records [c2good]).isOk = true :=
  C2_no_raise_when_overdue_intable [c2good] (by decide)

/-- C3 counterexample: a single typed record with `reloan_status`
`"Unknown"` falls in neither Predicate-B bucket of `get_kpi_data`, so
fresh + reloan equals neither the case count nor the sanction total. -/
theorem C3_counterexample :
    (get_kpi_data [c3bad]).fresh_cases + (get_kpi_data [c3bad]).reloan_cases ≠
        (get_kpi_data [c3bad]).total_applications ∧
      (get_kpi_data [c3bad]).fresh_sanction_amount +
          (get_kpi_data [c3bad]).reloan_sanction_amount ≠
        (get_kpi_data [c3bad]).sanction_amount := by
  constructor
  · decide
  · rw [← qadd_eq]
    decide

/-- C3 (amended): fresh + reloan = total holds unconditionally for the
Predicate-A family (`calculate_kpi_from_records`, fresh iff
`reloan_status != 'Reloan'`) for all five metrics (sanction, disbursed,
repayment, collected, case count); for the Predicate-B families
(`get_kpi_data` and `api_fraud_kpi_data`, fresh iff
`reloan_status == 'Freash'`) it holds provided every record's
`reloan_status` is `'Freash'` or `'Reloan'` — the counterexample forces that
proviso. -/
theorem C3_fresh_reloan_additivity :
    (∀ (l : List Rec) (k : Kpi), calculate_kpi_from_records l = .ok k →
        k.fresh_sanction_amount + k.reloan_sanction_amount = k.sanction_amount ∧
        k.fresh_disbursed_amount + k.reloan_disbursed_amount = k.net_disbursal ∧
        k.fresh_repayment_amount + k.reloan_repayment_amount = k.repayment_amount ∧
        k.fresh_collected_amount + k.reloan_collected_amount = k.collected_amount ∧
        k.fresh_cases + k.reloan_cases = k.total_applications) ∧
    (∀ l : List TypedRec,
        (∀ r ∈ l, r.reloan_status = "Freash".toList ∨ r.reloan_status = "Reloan".toList) →
        (get_kpi_data l).fresh_sanction_amount + (get_kpi_data l).reloan_sanction_amount =
            (get_kpi_data l).sanction_amount ∧
        (get_kpi_data l).fresh_disbursed_amount + (get_kpi_data l).reloan_disbursed_amount =
            (get_kpi_data l).disbursed_amount ∧
        (get_kpi_data l).fresh_repayment_amount + (get_kpi_data l).reloan_repayment_amount =
            (get_kpi_data l).repayment_amount ∧
        (get_kpi_data l).fresh_collected_amount + (get_kpi_data l).reloan_collected_amount =
            (get_kpi_data l).collected_amount ∧
        (get_kpi_data l).fresh_cases + (get_kpi_data l).reloan_cases =
            (get_kpi_data l).total_applications) ∧
    (∀ (l : List Rec) (k : FraudKpi), api_fraud_kpi_data l = .ok k →
        (∀ r ∈ l, pyGetNone r.reloan_status = .str "Freash".toList ∨
          pyGetNone r.reloan_status = .str "Reloan".toList) →
        k.fresh_sanction_amount + k.reloan_sanction_amount = k.sanction_amount ∧
        k.fresh_disbursed_amount + k.reloan_disbursed_amount = k.disbursed_amount ∧
        k.fresh_repayment_amount + k.reloan_repayment_amount = k.repayment_amount ∧
        k.fresh_collected_amount + k.reloan_collected_amount = k.collected_amount ∧
        k.fresh_cases + k.reloan_cases = k.total_applications) := by
  refine ⟨?_, ?_, ?_⟩
  · intro l k hk
    unfold calculate_kpi_from_records at hk
    by_cases h0 : l.length = 0
    · rw [if_pos h0] at hk
      obtain rfl := Except.ok.inj hk
      norm_num [zeroKpi]
    · rw [if_neg h0] at hk
      by_cases hall : l.all fun r => (overdueInt r).isSome
      · rw [if_pos hall] at hk
        obtain rfl := Except.ok.inj hk
        have hA : isFreshA = fun r => !(isReloan r) := by
          funext r
          simp [isFreshA, isReloan]
        refine ⟨?_, ?_, ?_, ?_, ?_⟩
        · show sumSafe Rec.loan_amount (l.filter isFreshA) +
            sumSafe Rec.loan_amount (l.filter isReloan) = sumSafe Rec.loan_amount l
          rw [hA]
          have hsum := sumQ_map_filter_add
            (fun r => safe_decimal_conversion (pyGetNone (Rec.loan_amount r))) isReloan l
          unfold sumSafe
          linarith [hsum]
        · show sumSafe Rec.net_disbursal (l.filter isFreshA) +
            sumSafe Rec.net_disbursal (l.filter isReloan) = sumSafe Rec.net_disbursal l
          rw [hA]
          have hsum := sumQ_map_filter_add
            (fun r => safe_decimal_conversion (pyGetNone (Rec.net_disbursal r))) isReloan l
          unfold sumSafe
          linarith [hsum]
        · show sumSafe Rec.repayment_amount (l.filter isFreshA) +
            sumSafe Rec.repayment_amount (l.filter isReloan) = sumSafe Rec.repayment_amount l
          rw [hA]
          have hsum := sumQ_map_filter_add
            (fun r => safe_decimal_conversion (pyGetNone (Rec.repayment_amount r))) isReloan l
          unfold sumSafe
          linarith [hsum]
        · show sumSafe Rec.total_received (l.filter isFreshA) +
            sumSafe Rec.total_received (l.filter isReloan) = sumSafe Rec.total_received l
          rw [hA]
          have hsum := sumQ_map_filter_add
            (fun r => safe_decimal_conversion (pyGetNone (Rec.total_received r))) isReloan l
          unfold sumSafe
          linarith [hsum]
        · show (l.filter isFreshA).length + (l.filter isReloan).length = l.length
          rw [hA]
          have hlen := length_filter_add isReloan l
          omega
      · rw [if_neg hall] at hk
        cases hk
  · intro l hstat
    unfold get_kpi_data
    by_cases h0 : l.length = 0
    · rw [if_pos h0]
      norm_num [zeroKpiB]
    · rw [if_neg h0]
      have hcov : ∀ r ∈ l, isFreshT r ∨ isReloanT r := by
        intro r hr
        rcases hstat r hr with h | h
        · exact Or.inl (by simp [isFreshT, h])
        · exact Or.inr (by simp [isReloanT, h])
      have hdisj : ∀ r ∈ l, ¬(isFreshT r ∧ isReloanT r) := by
        intro r _ hc
        simp only [isFreshT, isReloanT, decide_eq_true_eq] at hc
        have := hc.1.symm.trans hc.2
        simp at this
      refine ⟨?_, ?_, ?_, ?_, ?_⟩
      · show sumT TypedRec.loan_amount (l.filter isFreshT) +
          sumT TypedRec.loan_amount (l.filter isReloanT) = sumT TypedRec.loan_amount l
        exact sumQ_map_filter_partition TypedRec.loan_amount isFreshT isReloanT l hcov hdisj
      · show sumT TypedRec.net_disbursal (l.filter isFreshT) +
          sumT TypedRec.net_disbursal (l.filter isReloanT) = sumT TypedRec.net_disbursal l
        exact sumQ_map_filter_partition TypedRec.net_disbursal isFreshT isReloanT l hcov hdisj
      · show sumT TypedRec.repayment_amount (l.filter isFreshT) +
          sumT TypedRec.repayment_amount (l.filter isReloanT) =
            sumT TypedRec.repayment_amount l
        exact sumQ_map_filter_partition TypedRec.repayment_amount isFreshT isReloanT l hcov
          hdisj
      · show sumT TypedRec.total_received (l.filter isFreshT) +
          sumT TypedRec.total_received (l.filter isReloanT) = sumT TypedRec.total_received l
        exact sumQ_map_filter_partition TypedRec.total_received isFreshT isReloanT l hcov hdisj
      · show (l.filter isFreshT).length + (l.filter isReloanT).length = l.length
        exact length_filter_partition isFreshT isReloanT l hcov hdisj
  · intro l k hk hstat
    unfold api_fraud_kpi_data at hk
    by_cases h0 : l.isEmpty
    · rw [if_pos h0] at hk
      obtain rfl := Except.ok.inj hk
      norm_num [zeroFraudKpi]
    · rw [if_neg h0] at hk
      by_cases hall : l.all fraudRecOk
      · rw [if_pos hall] at hk
        obtain rfl := Except.ok.inj hk
        have hcov : ∀ r ∈ l, isFreshB r ∨ isReloan r := by
          intro r hr
          rcases hstat r hr with h | h
          · exact Or.inl (by simp [isFreshB, valueEqStr, h])
          · exact Or.inr (by simp [isReloan, valueEqStr, h])
        have hdisj : ∀ r ∈ l, ¬(isFreshB r ∧ isReloan r) := by
          intro r _ hc
          simp only [isFreshB, isReloan, valueEqStr, decide_eq_true_eq] at hc
          have := hc.1.symm.trans hc.2
          simp at this
        refine ⟨?_, ?_, ?_, ?_, ?_⟩
        · show sumDec0 Rec.loan_amount (l.filter isFreshB) +
            sumDec0 Rec.loan_amount (l.filter isReloan) = sumDec0 Rec.loan_amount l
          exact sumQ_map_filter_partition
            (fun r => (decimalStr (pyGet (Rec.loan_amount r) (.int 0))).getD 0)
            isFreshB isReloan l hcov hdisj
        · show sumDec0 Rec.net_disbursal (l.filter isFreshB) +
            sumDec0 Rec.net_disbursal (l.filter isReloan) = sumDec0 Rec.net_disbursal l
          exact sumQ_map_filter_partition
            (fun r => (decimalStr (pyGet (Rec.net_disbursal r) (.int 0))).getD 0)
            isFreshB isReloan l hcov hdisj
        · show sumDec0 Rec.repayment_amount (l.filter isFreshB) +
            sumDec0 Rec.repayment_amount (l.filter isReloan) = sumDec0 Rec.repayment_amount l
          exact sumQ_map_filter_partition
            (fun r => (decimalStr (pyGet (Rec.repayment_amount r) (.int 0))).getD 0)
            isFreshB isReloan l hcov hdisj
        · show sumDec0 Rec.total_received (l.filter isFreshB) +
            sumDec0 Rec.total_received (l.filter isReloan) = sumDec0 Rec.total_received l
          exact sumQ_map_filter_partition
            (fun r => (decimalStr (pyGet (Rec.total_received r) (.int 0))).getD 0)
            isFreshB isReloan l hcov hdisj
        · show (l.filter isFreshB).length + (l.filter isReloan).length = l.length
          exact length_filter_partition isFreshB isReloan l hcov hdisj
      · rw [if_neg hall] at hk
        cases hk

/-- C3 witness: on the concrete well-labelled record sets the additivity
holds for both the typed (`get_kpi_data`) and the raw
(`api_fraud_kpi_data`) Predicate-B families. -/
theorem C3_witness :
    ((get_kpi_data c3wT).fresh_sanction_amount + (get_kpi_data c3wT).reloan_sanction_amount =
        (get_kpi_data c3wT).sanction_amount) ∧
      ((api_fraud_kpi_data c3wR).map fun k =>
          decide (k.fresh_cases + k.reloan_cases = k.total_applications)) = .ok true := by
  constructor
  · exact (C3_fresh_reloan_additivity.2.1 c3wT (by decide)).1
  · have hok : (api_fraud_kpi_data c3wR).isOk = true := by decide
    cases hk : api_fraud_kpi_data c3wR with
    | error e => rw [hk] at hok; simp [Except.isOk, Except.toBool] at hok
    | ok k =>
      have hcases := (C3_fresh_reloan_additivity.2.2 c3wR k hk (by decide)).2.2.2.2
      simp [Except.map, hcases]


theorem get_amount_bucket_mem (q : ℚ) :
    ∃ name, get_amount_bucket q = some name ∧ name ∈ bucket_order := by
  unfold get_amount_bucket
  rcases lt_or_le q 5 with h | h5
  · rw [if_pos h]; exact ⟨_, rfl, by decide⟩
  · rw [if_neg (not_lt.mpr h5)]
    rcases lt_or_le q 10 with h | h10
    · rw [if_pos ⟨h5, h⟩]; exact ⟨_, rfl, by decide⟩
    · rw [if_neg fun hc => absurd hc.2 (not_lt.mpr h10)]
      rcases lt_or_le q 20 with h | h20
      · rw [if_pos ⟨h10, h⟩]; exact ⟨_, rfl, by decide⟩
      · rw [if_neg fun hc => absurd hc.2 (not_lt.mpr h20)]
        rcases lt_or_le q 30 with h | h30
        · rw [if_pos ⟨h20, h⟩]; exact ⟨_, rfl, by decide⟩
        · rw [if_neg fun hc => absurd hc.2 (not_lt.mpr h30)]
          rcases lt_or_le q 40 with h | h40
          · rw [if_pos ⟨h30, h⟩]; exact ⟨_, rfl, by decide⟩
          · rw [if_neg fun hc => absurd hc.2 (not_lt.mpr h40)]
            rcases lt_or_le q 50 with h | h50
            · rw [if_pos ⟨h40, h⟩]; exact ⟨_, rfl, by decide⟩
            · rw [if_neg fun hc => absurd hc.2 (not_lt.mpr h50)]
              rcases lt_or_le q 60 with h | h60
              · rw [if_pos ⟨h50, h⟩]; exact ⟨_, rfl, by decide⟩
              · rw [if_neg fun hc => absurd hc.2 (not_lt.mpr h60)]
                rcases lt_or_le q 70 with h | h70
                · rw [if_pos ⟨h60, h⟩]; exact ⟨_, rfl, by decide⟩
                · rw [if_neg fun hc => absurd hc.2 (not_lt.mpr h70)]
                  rcases lt_or_le q 80 with h | h80
                  · rw [if_pos ⟨h70, h⟩]; exact ⟨_, rfl, by decide⟩
                  · rw [if_neg fun hc => absurd hc.2 (not_lt.mpr h80)]
                    rcases lt_or_le q 90 with h | h90
                    · rw [if_pos ⟨h80, h⟩]; exact ⟨_, rfl, by decide⟩
                    · rw [if_neg fun hc => absurd hc.2 (not_lt.mpr h90)]
                      rw [if_pos h90]
                      exact ⟨_, rfl, by decide⟩

theorem updateBand_names (bands : List Band) (name : Str) (f : Band → Band)
    (hf : ∀ b, (f b).bucket = b.bucket) :
    (updateBand bands name f).map Band.bucket = bands.map Band.bucket := by
  unfold updateBand
  rw [List.map_map]
  refine List.map_congr_left fun b _ => ?_
  by_cases h : b.bucket = name <;> simp [h, hf]

theorem updateBand_of_not_mem (t : List Band) (name : Str) (f : Band → Band)
    (h : name ∉ t.map Band.bucket) : updateBand t name f = t := by
  induction t with
  | nil => rfl
  | cons b bs ih =>
    simp only [List.map_cons, List.mem_cons, not_or] at h
    unfold updateBand
    simp only [List.map_cons]
    rw [if_neg fun hb => h.1 hb.symm]
    have := ih h.2
    unfold updateBand at this
    rw [this]

theorem sum_total_count_updateBand_inc (bands : List Band) (name : Str) (f : Band → Band)
    (hf : ∀ b, (f b).total_count = b.total_count + 1)
    (hmem : name ∈ bands.map Band.bucket) (hnodup : (bands.map Band.bucket).Nodup) :
    ((updateBand bands name f).map Band.total_count).sum =
      (bands.map Band.total_count).sum + 1 := by
  induction bands with
  | nil => simp at hmem
  | cons b bs ih =>
    simp only [List.map_cons, List.mem_cons] at hmem
    simp only [List.map_cons, List.nodup_cons] at hnodup
    unfold updateBand
    simp only [List.map_cons]
    by_cases hb : b.bucket = name
    · rw [if_pos hb]
      have hrest : updateBand bs name f = bs :=
        updateBand_of_not_mem bs name f (by rw [← hb]; exact hnodup.1)
      unfold updateBand at hrest
      simp only [List.map_cons, List.sum_cons, hrest, hf b]
      omega
    · rw [if_neg hb]
      have hmem' : name ∈ bs.map Band.bucket := by
        rcases hmem with h | h
        · exact absurd h.symm hb
        · exact h
      have := ih hmem' hnodup.2
      unfold updateBand at this
      simp only [List.map_cons, List.sum_cons, this]
      omega

theorem sum_total_count_updateBand_keep (bands : List Band) (name : Str) (f : Band → Band)
    (hf : ∀ b, (f b).total_count = b.total_count) :
    ((updateBand bands name f).map Band.total_count).sum =
      (bands.map Band.total_count).sum := by
  unfold updateBand
  rw [List.map_map]
  congr 1
  refine List.map_congr_left fun b _ => ?_
  by_cases h : b.bucket = name <;> simp [h, hf]

set_option maxHeartbeats 2000000 in
theorem bandStep_invariant (st : List Band × ℚ) (r : Rec)
    (hst : st.1.map Band.bucket = bucket_order) :
    (bandStep st r).1.map Band.bucket = bucket_order ∧
      ((bandStep st r).1.map Band.total_count).sum =
        (st.1.map Band.total_count).sum + 1 := by
  obtain ⟨name, hname, hmem⟩ := get_amount_bucket_mem
    (qdiv (max (safe_decimal_conversion (pyGet r.repayment_amount (.int 0))) 0) 1000)
  have hcontains : bucket_order.contains name = true := List.elem_iff.mpr hmem
  have hnodup : (st.1.map Band.bucket).Nodup := by rw [hst]; decide
  have hmem' : name ∈ st.1.map Band.bucket := by rw [hst]; exact hmem
  have hinc := sum_total_count_updateBand_inc st.1 name
    (fun b => { b with
      total_count := b.total_count + 1
      total_repayment_amount := qadd b.total_repayment_amount
        (safe_decimal_conversion (pyGet r.repayment_amount (.int 0)))
      total_collected_amount := qadd b.total_collected_amount
        (safe_decimal_conversion (pyGet r.total_received (.int 0))) })
    (fun b => rfl) hmem' hnodup
  have hnames1 := updateBand_names st.1 name
    (fun b => { b with
      total_count := b.total_count + 1
      total_repayment_amount := qadd b.total_repayment_amount
        (safe_decimal_conversion (pyGet r.repayment_amount (.int 0)))
      total_collected_amount := qadd b.total_collected_amount
        (safe_decimal_conversion (pyGet r.total_received (.int 0))) })
    (fun b => rfl)
  by_cases hnc : isNotClosed r
  · simp only [bandStep, hname, hcontains, if_true, hnc]
    constructor
    · rw [updateBand_names]
      · rw [hnames1, hst]
      · intro b; rfl
    · rw [sum_total_count_updateBand_keep]
      · exact hinc
      · intro b; rfl
  · have hnc' : isNotClosed r = false := by simpa using hnc
    simp only [bandStep, hname, hcontains, if_true, hnc', Bool.false_eq_true, if_false]
    exact ⟨by rw [hnames1, hst], hinc⟩

theorem bandFold_total (l : List Rec) :
    ∀ st : List Band × ℚ, st.1.map Band.bucket = bucket_order →
      ((l.foldl bandStep st).1.map Band.bucket = bucket_order ∧
        ((l.foldl bandStep st).1.map Band.total_count).sum =
          (st.1.map Band.total_count).sum + l.length) := by
  induction l with
  | nil => intro st hst; simpa using hst
  | cons r t ih =>
    intro st hst
    simp only [List.foldl_cons, List.length_cons]
    obtain ⟨hnames, hsum⟩ := bandStep_invariant st r hst
    obtain ⟨ih1, ih2⟩ := ih (bandStep st r) hnames
    exact ⟨ih1, by rw [ih2, hsum]; omega⟩

set_option maxHeartbeats 2000000 in
/-- C4 counterexample: a record with `repayment_amount = -100` and
`closed_status = 'Not Closed'` is classified into the `<5k` band (via
`max(repayment_amount, 0)`), counted there (total and pending) and its
negative repayment added to the band's repayment sum — it is not
unclassified. -/
theorem C4_counterexample :
    (api_fraud_pending_cases_by_amount [c4rec]).buckets.head? = some
      { bucket := "<5k".toList, count := 1, pending_count := 1, total_count := 1,
        total_pending_amount := 0, total_repayment_amount := -100,
        total_collected_amount := 0, pending_percentage_count := 100,
        pending_percentage_amount := 0 } := by
  decide

/-- C4 (amended): a record with negative `repayment_amount` is clamped to
zero for classification (`max(repayment_amount, 0)`) and lands in the `<5k`
band; every record of the filtered set is classified into exactly one band,
so the bands' total counts sum to the number of records. -/
theorem C4_negative_repayment_clamped_to_lt5k :
    (∀ q : ℚ, q < 0 → get_amount_bucket (qdiv (max q 0) 1000) = some ("<5k".toList)) ∧
      ∀ l : List Rec,
        ((api_fraud_pending_cases_by_amount l).buckets.map BandOut.total_count).sum =
          l.length := by
  constructor
  · intro q hq
    rw [max_eq_right (le_of_lt hq)]
    decide
  · intro l
    unfold api_fraud_pending_cases_by_amount
    by_cases h0 : l.isEmpty
    · rw [if_pos h0]
      have hnil : l = [] := List.isEmpty_iff.mp h0
      subst hnil
      rfl
    · rw [if_neg h0]
      have hinit : ((bucket_order.map initBand).map Band.bucket) = bucket_order := by decide
      obtain ⟨_, hsum⟩ := bandFold_total l (bucket_order.map initBand, 0) hinit
      show (((l.foldl bandStep (bucket_order.map initBand, 0)).1.map bandOut).map
        BandOut.total_count).sum = l.length
      rw [List.map_map]
      have hcomp : (BandOut.total_count ∘ bandOut) = Band.total_count := rfl
      rw [hcomp, hsum]
      have hz : (((bucket_order.map initBand, (0 : ℚ)).1.map Band.total_count)).sum = 0 := by
        decide
      rw [hz]
      omega

/-- C4 witness: at the concrete negative amount −3 the classifier lands in
`<5k`, and the one-record negative-repayment set is fully counted. -/
theorem C4_witness :
    get_amount_bucket (qdiv (max (-3 : ℚ) 0) 1000) = some ("<5k".toList) ∧
      ((api_fraud_pending_cases_by_amount [c4rec]).buckets.map BandOut.total_count).sum = 1 := by
  constructor
  · exact C4_negative_repayment_clamped_to_lt5k.1 (-3) (by norm_num)
  · simpa using C4_negative_repayment_clamped_to_lt5k.2 [c4rec]

/-- The descending comparison is transitive. -/
theorem cityDesc_trans : ∀ (a b c : CityEntry), cityDesc a b → cityDesc b c → cityDesc a c := by
  intro a b c hab hbc
  simp only [cityDesc, decide_eq_true_eq] at hab hbc ⊢
  exact le_trans hbc hab

/-- The descending comparison is total. -/
theorem cityDesc_total : ∀ (a b : CityEntry), cityDesc a b || cityDesc b a := by
  intro a b
  simp only [cityDesc, Bool.or_eq_true, decide_eq_true_eq]
  exact le_total b.collection_percentage a.collection_percentage

/-- The ascending comparison on worst-performer rows is transitive. -/
theorem cityAscW_trans :
    ∀ (a b c : CityEntryW), cityAscW a b → cityAscW b c → cityAscW a c := by
  intro a b c hab hbc
  simp only [cityAscW, decide_eq_true_eq] at hab hbc ⊢
  exact le_trans hab hbc

/-- The ascending comparison on worst-performer rows is total. -/
theorem cityAscW_total : ∀ (a b : CityEntryW), cityAscW a b || cityAscW b a := by
  intro a b
  simp only [cityAscW, Bool.or_eq_true, decide_eq_true_eq]
  exact le_total a.collection_percentage b.collection_percentage

/-- C6: in both city rankings a normalized-city group is included in the
pre-truncation result list iff it has at least 20 applications and
positive summed repayment — so any two cities with exactly 20 applications
are treated alike by the threshold; every included row's collection
percentage equals collected/repayment × 100; the best ranking is sorted by
that percentage descending, the worst ranking ascending; and each returned
list has at most 10 rows. -/
theorem C6_city_rankings (l : List Rec) :
    (∀ g ∈ cityAgg l, (toCityEntry g ∈ cityRanked l ↔ 20 ≤ g.apps ∧ 0 < g.repay)) ∧
      (∀ g ∈ cityAgg l, (toCityEntryW g ∈ cityRankedW l ↔ 20 ≤ g.apps ∧ 0 < g.repay)) ∧
      (∀ e ∈ cityRanked l,
        e.collection_percentage = e.collected_amount / e.repayment_amount * 100) ∧
      (∀ e ∈ cityRankedW l,
        e.collection_percentage = e.collected_amount / e.repayment_amount * 100) ∧
      (∀ res, api_city_collected l = .ok res →
        res.Pairwise (fun a b => b.collection_percentage ≤ a.collection_percentage) ∧
          res.length ≤ 10) ∧
      (∀ res, api_city_uncollected l = .ok res →
        res.Pairwise (fun a b => a.collection_percentage ≤ b.collection_percentage) ∧
          res.length ≤ 10) := by
  refine ⟨?_, ?_, ?_, ?_, ?_, ?_⟩
  · intro g hg
    constructor
    · intro hmem
      simp only [cityRanked, List.mem_filterMap] at hmem
      obtain ⟨g', hg', hsome⟩ := hmem
      by_cases hq : cityQualifies g' = true
      · rw [if_pos hq] at hsome
        have heq : toCityEntry g' = toCityEntry g := Option.some.inj hsome
        have happs : g'.apps = g.apps := congrArg CityEntry.total_applications heq
        have hrep : g'.repay = g.repay := congrArg CityEntry.repayment_amount heq
        simp only [cityQualifies, Bool.and_eq_true, decide_eq_true_eq] at hq
        exact ⟨happs ▸ hq.1, hrep ▸ hq.2⟩
      · rw [if_neg hq] at hsome
        cases hsome
    · intro h
      have hq : cityQualifies g = true := by
        simp only [cityQualifies, Bool.and_eq_true, decide_eq_true_eq]
        exact h
      simp only [cityRanked, List.mem_filterMap]
      exact ⟨g, hg, by rw [if_pos hq]⟩
  · intro g hg
    constructor
    · intro hmem
      simp only [cityRankedW, List.mem_filterMap] at hmem
      obtain ⟨g', hg', hsome⟩ := hmem
      by_cases hq : cityQualifies g' = true
      · rw [if_pos hq] at hsome
        have heq : toCityEntryW g' = toCityEntryW g := Option.some.inj hsome
        have happs : g'.apps = g.apps := congrArg CityEntryW.total_applications heq
        have hrep : g'.repay = g.repay := congrArg CityEntryW.repayment_amount heq
        simp only [cityQualifies, Bool.and_eq_true, decide_eq_true_eq] at hq
        exact ⟨happs ▸ hq.1, hrep ▸ hq.2⟩
      · rw [if_neg hq] at hsome
        cases hsome
    · intro h
      have hq : cityQualifies g = true := by
        simp only [cityQualifies, Bool.and_eq_true, decide_eq_true_eq]
        exact h
      simp only [cityRankedW, List.mem_filterMap]
      exact ⟨g, hg, by rw [if_pos hq]⟩
  · intro e he
    simp only [cityRanked, List.mem_filterMap] at he
    obtain ⟨g, hg, hsome⟩ := he
    by_cases hq : cityQualifies g = true
    · rw [if_pos hq] at hsome
      obtain rfl := Option.some.inj hsome
      show qmul (qdiv g.collected g.repay) 100 = g.collected / g.repay * 100
      rw [qmul_eq, qdiv_eq]
    · rw [if_neg hq] at hsome
      cases hsome
  · intro e he
    simp only [cityRankedW, List.mem_filterMap] at he
    obtain ⟨g, hg, hsome⟩ := he
    by_cases hq : cityQualifies g = true
    · rw [if_pos hq] at hsome
      obtain rfl := Option.some.inj hsome
      show qmul (qdiv g.collected g.repay) 100 = g.collected / g.repay * 100
      rw [qmul_eq, qdiv_eq]
    · rw [if_neg hq] at hsome
      cases hsome
  · intro res h
    unfold api_city_collected at h
    by_cases h0 : l.isEmpty = true
    · rw [if_pos h0] at h
      obtain rfl := Except.ok.inj h
      exact ⟨List.Pairwise.nil, by simp⟩
    · rw [if_neg h0] at h
      by_cases hall : l.all cityFieldsOk = true
      · rw [if_pos hall] at h
        obtain rfl := Except.ok.inj h
        refine ⟨?_, ?_⟩
        · have hs := List.sorted_mergeSort cityDesc_trans cityDesc_total (cityRanked l)
          have hs' : ((cityRanked l).mergeSort cityDesc).Pairwise
              (fun a b => b.collection_percentage ≤ a.collection_percentage) := by
            refine hs.imp ?_
            intro a b hab
            simpa [cityDesc] using hab
          exact hs'.sublist (List.take_sublist 10 _)
        · rw [List.length_take]
          exact min_le_left _ _
      · rw [if_neg hall] at h
        cases h
  · intro res h
    unfold api_city_uncollected at h
    by_cases h0 : l.isEmpty = true
    · rw [if_pos h0] at h
      obtain rfl := Except.ok.inj h
      exact ⟨List.Pairwise.nil, by simp⟩
    · rw [if_neg h0] at h
      by_cases hall : l.all cityFieldsOk = true
      · rw [if_pos hall] at h
        obtain rfl := Except.ok.inj h
        refine ⟨?_, ?_⟩
        · have hs := List.sorted_mergeSort cityAscW_trans cityAscW_total (cityRankedW l)
          have hs' : ((cityRankedW l).mergeSort cityAscW).Pairwise
              (fun a b => a.collection_percentage ≤ b.collection_percentage) := by
            refine hs.imp ?_
            intro a b hab
            simpa [cityAscW] using hab
          exact hs'.sublist (List.take_sublist 10 _)
        · rw [List.length_take]
          exact min_le_left _ _
      · rw [if_neg hall] at h
        cases h

set_option maxHeartbeats 2000000 in
/-- C6 witness: over twenty Mumbai records (half collected) plus one Pune
record, Mumbai's group is included in both rankings, its percentage obeys
the formula, and both endpoint results are sorted singletons of at most 10
rows. -/
theorem C6_witness :
    toCityEntry c6g ∈ cityRanked c6ex ∧
      toCityEntryW c6g ∈ cityRankedW c6ex ∧
      (toCityEntry c6g).collection_percentage =
        (toCityEntry c6g).collected_amount / (toCityEntry c6g).repayment_amount * 100 ∧
      [toCityEntry c6g].Pairwise
        (fun a b : CityEntry => b.collection_percentage ≤ a.collection_percentage) ∧
      [toCityEntryW c6g].Pairwise
        (fun a b : CityEntryW => a.collection_percentage ≤ b.collection_percentage) ∧
      [toCityEntryW c6g].length ≤ 10 := by
  obtain ⟨m1, m2, p1, p2, s1, s2⟩ := C6_city_rankings c6ex
  have hg : c6g ∈ cityAgg c6ex := by decide
  have hmem : toCityEntry c6g ∈ cityRanked c6ex := (m1 c6g hg).mpr (by decide)
  have hmemW : toCityEntryW c6g ∈ cityRankedW c6ex := (m2 c6g hg).mpr (by decide)
  have hr : cityRanked c6ex = [toCityEntry c6g] := by decide
  have hrW : cityRankedW c6ex = [toCityEntryW c6g] := by decide
  have hok : api_city_collected c6ex = .ok [toCityEntry c6g] := by
    unfold api_city_collected
    rw [if_neg (by decide), if_pos (by decide), hr, List.mergeSort_singleton]
    rfl
  have hokW : api_city_uncollected c6ex = .ok [toCityEntryW c6g] := by
    unfold api_city_uncollected
    rw [if_neg (by decide), if_pos (by decide), hrW, List.mergeSort_singleton]
    rfl
  obtain ⟨hp1, _⟩ := s1 [toCityEntry c6g] hok
  obtain ⟨hp2, hl2⟩ := s2 [toCityEntryW c6g] hokW
  exact ⟨hmem, hmemW, p1 (toCityEntry c6g) hmem, hp1, hp2, hl2⟩

/-- The date-range stage only filters: its result is a subsequence of its
input. -/
theorem dateStage_sublist (p : FilterParams) (l : List Rec) :
    (dateStage p l).Sublist l := by
  simp only [dateStage]
  split
  · split
    · split
      · exact List.filter_sublist l
      · exact List.filter_sublist l
    · exact List.Sublist.refl l
  · exact List.Sublist.refl l

/-- The closing-status stage only filters. -/
theorem closingStage_sublist (p : FilterParams) (l : List Rec) :
    (closingStage p l).Sublist l := by
  unfold closingStage
  split
  · exact List.filter_sublist l
  · exact List.Sublist.refl l

/-- The DPD stage only filters. -/
theorem dpdStage_sublist (p : FilterParams) (l : List Rec) :
    (dpdStage p l).Sublist l := by
  unfold dpdStage
  split
  · exact List.filter_sublist l
  · exact List.Sublist.refl l

/-- When the state → city stage succeeds it returns a subsequence of its
input. -/
theorem stateCityStage_sublist (p : FilterParams) (l res : List Rec)
    (h : stateCityStage p l = .ok res) : res.Sublist l := by
  simp only [stateCityStage] at h
  by_cases hs : paramTruthy p.state = true
  · rw [if_pos hs] at h
    by_cases hc : paramTruthy p.city = true
    · rw [if_pos hc] at h
      exact (pyFilterE_sublist _ _ _ h).trans (List.filter_sublist l)
    · rw [if_neg hc] at h
      exact Except.ok.inj h ▸ List.filter_sublist l
  · rw [if_neg hs] at h
    by_cases hc : paramTruthy p.city = true
    · rw [if_pos hc] at h
      exact pyFilterE_sublist _ _ _ h
    · rw [if_neg hc] at h
      exact Except.ok.inj h ▸ List.Sublist.refl l

/-- C10: apply_fraud_filters is order-preserving and duplication-free —
whenever it returns a result (no exception), that result is a subsequence
of the input record list: every output record occurs in the input, no
record is duplicated beyond its input multiplicity, and relative order is
preserved.  Each stage either keeps the list or filters it, and
`List.Sublist` composes by transitivity. -/
theorem C10_filters_subsequence :
    ∀ (p : FilterParams) (l res : List Rec),
      apply_fraud_filters p l = .ok res → res.Sublist l := by
  intro p l res h
  unfold apply_fraud_filters at h
  exact (stateCityStage_sublist p _ res h).trans
    ((dpdStage_sublist p _).trans
      ((closingStage_sublist p _).trans (dateStage_sublist p l)))

/-- C10 witness: with a closing-status filter over two concrete records the
call succeeds with exactly the matching record, and that one-record result
is a subsequence of the input. -/
theorem C10_witness :
    apply_fraud_filters c10p [c5rec, c4rec] = .ok [c4rec] ∧
      List.Sublist [c4rec] [c5rec, c4rec] :=
  ⟨by decide, C10_filters_subsequence c10p [c5rec, c4rec] [c4rec] (by decide)⟩

/-- Requesting a page past `ceil(n / per_page)` puts the slice start at or
beyond the end of the list. -/
theorem pageBeyond (n : ℕ) (pp page : ℤ) (hpp : 0 < pp)
    (h : Int.fdiv ((n : ℤ) + pp - 1) pp < page) : (n : ℤ) ≤ (page - 1) * pp := by
  rw [Int.fdiv_eq_ediv _ (le_of_lt hpp)] at h
  have hd := Int.ediv_add_emod ((n : ℤ) + pp - 1) pp
  have hr1 := Int.emod_lt_of_pos ((n : ℤ) + pp - 1) hpp
  have h1 : ((n : ℤ) + pp - 1) / pp ≤ page - 1 := by
    have h2 := Int.lt_iff_add_one_le.mp h
    linarith
  have h2 : pp * (((n : ℤ) + pp - 1) / pp) ≤ pp * (page - 1) :=
    mul_le_mul_of_nonneg_left h1 (le_of_lt hpp)
  have h3 := mul_comm pp (page - 1)
  linarith

/-- Slicing the empty list gives the empty list. -/
theorem pySliceInt_nil (a b : ℤ) : pySliceInt ([] : List Rec) a b = [] := by
  simp [pySliceInt]

/-- A slice that starts at or past the end of the list is empty. -/
theorem pySliceInt_past_end (l : List Rec) (a b : ℤ) (h0 : 0 ≤ a)
    (h : (l.length : ℤ) ≤ a) : pySliceInt l a b = [] := by
  simp only [pySliceInt]
  have hc : (if a < 0 then max ((l.length : ℤ) + a) 0 else min a (l.length : ℤ)).toNat
      = l.length := by
    rw [if_neg (not_lt.mpr h0), min_eq_right h, Int.toNat_natCast]
  rw [hc, List.drop_length, List.take_nil]

/-- The disbursal-summary page arithmetic equals a clamp into
`[1, total_pages]`. -/
theorem clampChar (page tp : ℤ) (h1 : 1 ≤ tp) :
    (if (if page < 1 then 1 else page) > tp ∧ tp > 0 then tp
      else (if page < 1 then 1 else page)) = min (max page 1) tp := by
  split_ifs <;> omega

set_option maxHeartbeats 1000000 in
/-- C5: no endpoint clamps an out-of-range page to page 1.  The
total-applications and DPD detail lists leave the requested page number
untouched and return an empty record page whenever the page exceeds
total_pages (with a positive per_page); the disbursal summary clamps the
page into `[1, total_pages]`, sending too-large pages to the LAST page,
not the first. -/
theorem C5_out_of_range_pages :
    (∀ fp dp l res, api_total_applications_details fp dp l = .ok res →
        res.pagination.current_page = dp.page ∧
          (res.pagination.total_pages < dp.page → 0 < dp.per_page →
            res.records = [])) ∧
      (∀ fp dp bucket l res, api_dpd_bucket_details fp dp bucket l = .ok res →
        res.pagination.current_page = dp.page ∧
          (res.pagination.total_pages < dp.page → 0 < dp.per_page →
            res.records = [])) ∧
      (∀ p l res, api_disbursal_summary p l = .ok res →
        res.pagination.current_page = min (max p.page 1) res.pagination.total_pages) := by
  refine ⟨?_, ?_, ?_⟩
  · intro fp dp l res h
    simp only [api_total_applications_details] at h
    split at h
    · cases h
    · rename_i sorted hs
      split at h
      · cases h
      · rename_i rows hm
        split at h
        · cases h
        · rename_i hpp0
          obtain rfl := Except.ok.inj h
          refine ⟨rfl, ?_⟩
          intro htp hpos
          show rows = []
          have htp' : Int.fdiv ((sorted.length : ℤ) + dp.per_page - 1) dp.per_page
              < dp.page := htp
          have hfd : 0 ≤ Int.fdiv ((sorted.length : ℤ) + dp.per_page - 1) dp.per_page :=
            Int.fdiv_nonneg (by omega) (le_of_lt hpos)
          have hp1 : 1 ≤ dp.page := by
            have := lt_of_le_of_lt hfd htp'
            omega
          have hn : (sorted.length : ℤ) ≤ (dp.page - 1) * dp.per_page :=
            pageBeyond sorted.length dp.per_page dp.page hpos htp'
          have hsl : pySliceInt sorted ((dp.page - 1) * dp.per_page)
              ((dp.page - 1) * dp.per_page + dp.per_page) = [] :=
            pySliceInt_past_end _ _ _ (mul_nonneg (by omega) (le_of_lt hpos)) hn
          rw [hsl] at hm
          simp only [pyMapE] at hm
          exact (Except.ok.inj hm).symm
  · intro fp dp bucket l res h
    simp only [api_dpd_bucket_details] at h
    split at h
    · cases h
    · split at h
      · cases h
      · rename_i searched hfl
        split at h
        · cases h
        · rename_i totals htot
          split at h
          · cases h
          · rename_i sorted hsort
            split at h
            · cases h
            · rename_i total_pages hTp
              split at h
              · cases h
              · rename_i rows hm
                obtain rfl := Except.ok.inj h
                refine ⟨rfl, ?_⟩
                intro htp hpos
                show rows = []
                by_cases hn0 : 0 < sorted.length
                · rw [if_pos hn0, if_neg (by omega : ¬ dp.per_page = 0)] at hTp
                  obtain rfl := Except.ok.inj hTp
                  have htp' : Int.fdiv ((sorted.length : ℤ) + dp.per_page - 1) dp.per_page
                      < dp.page := htp
                  have hfd : 0 ≤ Int.fdiv ((sorted.length : ℤ) + dp.per_page - 1)
                      dp.per_page := Int.fdiv_nonneg (by omega) (le_of_lt hpos)
                  have hp1 : 1 ≤ dp.page := by
                    have := lt_of_le_of_lt hfd htp'
                    omega
                  have hn : (sorted.length : ℤ) ≤ (dp.page - 1) * dp.per_page :=
                    pageBeyond sorted.length dp.per_page dp.page hpos htp'
                  have hsl : pySliceInt sorted ((dp.page - 1) * dp.per_page)
                      ((dp.page - 1) * dp.per_page + dp.per_page) = [] :=
                    pySliceInt_past_end _ _ _ (mul_nonneg (by omega) (le_of_lt hpos)) hn
                  rw [hsl] at hm
                  simp only [pyMapE] at hm
                  exact (Except.ok.inj hm).symm
                · have hnil : sorted = [] :=
                    List.length_eq_zero.mp (by omega)
                  subst hnil
                  rw [pySliceInt_nil] at hm
                  simp only [pyMapE] at hm
                  exact (Except.ok.inj hm).symm
  · intro p l res h
    simp only [api_disbursal_summary] at h
    split at h
    · cases h
    · split at h
      · cases h
      · split at h
        · cases h
        · split at h
          · cases h
          · split at h
            · cases h
            · rename_i fr hfr
              obtain rfl := Except.ok.inj h
              have htp1 : (1 : ℤ) ≤
                  (if 0 < fr.length then Int.fdiv ((fr.length : ℤ) + 10 - 1) 10 else 1) := by
                split
                · rename_i hn
                  rw [Int.fdiv_eq_ediv _ (by norm_num)]
                  omega
                · exact le_refl 1
              exact clampChar p.page _ htp1

/-- C5 counterexample: with one record and per_page 20, requesting page 2
of the total-applications detail list returns an EMPTY page with
current_page still 2 (total_pages 1) — not the clamped first page, which
holds the record. -/
theorem C5_counterexample :
    ((api_total_applications_details c5fp c5dp2 [c5rec]).map fun r =>
        (r.records.length, r.pagination.current_page, r.pagination.total_pages)) =
      .ok (0, 2, 1) ∧
      ((api_total_applications_details c5fp c5dp1 [c5rec]).map fun r =>
        (r.records.length, r.pagination.current_page)) = .ok (1, 1) :=
  ⟨by decide, by decide⟩

/-- C5 witness: the amended theorem applied to the counterexample request
(current page stays 2, records empty) and to a disbursal request for page 5
of an empty set (clamped to `min (max 5 1) 1 = 1`). -/
theorem C5_witness :
    ((api_total_applications_details c5fp c5dp2 [c5rec]).map fun r =>
        r.pagination.current_page) = .ok c5dp2.page ∧
      ((api_total_applications_details c5fp c5dp2 [c5rec]).map fun r =>
        r.records) = .ok [] ∧
      ((api_disbursal_summary c5disp []).map fun r =>
        (r.pagination.current_page, r.pagination.total_pages)) = .ok (1, 1) := by
  cases hk : api_total_applications_details c5fp c5dp2 [c5rec] with
  | error e =>
    have hok : (api_total_applications_details c5fp c5dp2 [c5rec]).isOk = true := by decide
    rw [hk] at hok
    simp [Except.isOk, Except.toBool] at hok
  | ok res =>
    obtain ⟨h1, h2⟩ := C5_out_of_range_pages.1 c5fp c5dp2 [c5rec] res hk
    have htpv : ((api_total_applications_details c5fp c5dp2 [c5rec]).map fun r =>
        r.pagination.total_pages) = .ok 1 := by decide
    rw [hk] at htpv
    simp only [Except.map] at htpv
    have htp : res.pagination.total_pages < c5dp2.page := by
      rw [Except.ok.inj htpv]
      decide
    have hrec := h2 htp (by decide)
    cases hd : api_disbursal_summary c5disp [] with
    | error e =>
      have hokd : (api_disbursal_summary c5disp []).isOk = true := by decide
      rw [hd] at hokd
      simp [Except.isOk, Except.toBool] at hokd
    | ok resd =>
      have h3 := C5_out_of_range_pages.2.2 c5disp [] resd hd
      have htpd : ((api_disbursal_summary c5disp []).map fun r =>
          r.pagination.total_pages) = .ok 1 := by decide
      rw [hd] at htpd
      simp only [Except.map] at htpd
      have htpd' := Except.ok.inj htpd
      refine ⟨?_, ?_, ?_⟩
      · simp only [Except.map]
        exact congrArg Except.ok h1
      · simp only [Except.map]
        exact congrArg Except.ok hrec
      · simp only [Except.map]
        rw [h3, htpd']
        decide

/-- `(n + pp - 1) // pp` is exactly the rational ceiling of `n / pp` for a
positive divisor. -/
theorem fdiv_eq_ceil (n : ℕ) (pp : ℤ) (hpp : 0 < pp) :
    Int.fdiv ((n : ℤ) + pp - 1) pp = ⌈(n : ℚ) / (pp : ℚ)⌉ := by
  rw [Int.fdiv_eq_ediv _ (le_of_lt hpp)]
  symm
  rw [Int.ceil_eq_iff]
  have hd := Int.ediv_add_emod ((n : ℤ) + pp - 1) pp
  have hr0 := Int.emod_nonneg ((n : ℤ) + pp - 1) (ne_of_gt hpp)
  have hr1 := Int.emod_lt_of_pos ((n : ℤ) + pp - 1) hpp
  have hppQ : (0 : ℚ) < (pp : ℚ) := by exact_mod_cast hpp
  constructor
  · rw [lt_div_iff₀ hppQ]
    have h1 : (((n : ℤ) + pp - 1) / pp - 1) * pp < (n : ℤ) := by
      have hzz : (((n : ℤ) + pp - 1) / pp - 1) * pp
          = pp * (((n : ℤ) + pp - 1) / pp) - pp := by ring
      linarith
    exact_mod_cast h1
  · rw [div_le_iff₀ hppQ]
    have h2 : (n : ℤ) ≤ (((n : ℤ) + pp - 1) / pp) * pp := by
      have hzz : (((n : ℤ) + pp - 1) / pp) * pp = pp * (((n : ℤ) + pp - 1) / pp) := by ring
      linarith
    exact_mod_cast h2

set_option maxHeartbeats 1000000 in
/-- C9: the total-applications detail list does report
`total_pages = ceil(total_records / per_page)` (also 0 for an empty set),
but the DPD detail list and the disbursal summary special-case an empty
set to total_pages = 1 instead of the ceiling value 0. -/
theorem C9_total_pages :
    (∀ fp dp l res, api_total_applications_details fp dp l = .ok res → 0 < dp.per_page →
        res.pagination.total_pages =
          ⌈(res.pagination.total_records : ℚ) / (dp.per_page : ℚ)⌉) ∧
      (∀ fp dp bucket l res,
        api_dpd_bucket_details fp dp bucket l = .ok res → 0 < dp.per_page →
        res.pagination.total_pages =
          if 0 < res.pagination.total_records then
            ⌈(res.pagination.total_records : ℚ) / (dp.per_page : ℚ)⌉
          else 1) ∧
      (∀ p l res, api_disbursal_summary p l = .ok res →
        res.pagination.total_pages =
          if 0 < res.pagination.total_records then
            ⌈(res.pagination.total_records : ℚ) / ((10 : ℤ) : ℚ)⌉
          else 1) := by
  refine ⟨?_, ?_, ?_⟩
  · intro fp dp l res h hpos
    simp only [api_total_applications_details] at h
    split at h
    · cases h
    · rename_i sorted hs
      split at h
      · cases h
      · rename_i rows hm
        split at h
        · cases h
        · rename_i hpp0
          obtain rfl := Except.ok.inj h
          exact fdiv_eq_ceil sorted.length dp.per_page hpos
  · intro fp dp bucket l res h hpos
    simp only [api_dpd_bucket_details] at h
    split at h
    · cases h
    · split at h
      · cases h
      · rename_i searched hfl
        split at h
        · cases h
        · rename_i totals htot
          split at h
          · cases h
          · rename_i sorted hsort
            split at h
            · cases h
            · rename_i total_pages hTp
              split at h
              · cases h
              · rename_i rows hm
                obtain rfl := Except.ok.inj h
                show total_pages =
                  if 0 < sorted.length then
                    ⌈(sorted.length : ℚ) / (dp.per_page : ℚ)⌉
                  else 1
                by_cases hn0 : 0 < sorted.length
                · rw [if_pos hn0, if_neg (by omega : ¬ dp.per_page = 0)] at hTp
                  obtain rfl := Except.ok.inj hTp
                  rw [if_pos hn0]
                  exact fdiv_eq_ceil sorted.length dp.per_page hpos
                · rw [if_neg hn0] at hTp
                  obtain rfl := Except.ok.inj hTp
                  rw [if_neg hn0]
  · intro p l res h
    simp only [api_disbursal_summary] at h
    split at h
    · cases h
    · split at h
      · cases h
      · split at h
        · cases h
        · split at h
          · cases h
          · split at h
            · cases h
            · rename_i fr hfr
              obtain rfl := Except.ok.inj h
              show (if 0 < fr.length then Int.fdiv ((fr.length : ℤ) + 10 - 1) 10 else 1) =
                if 0 < fr.length then ⌈(fr.length : ℚ) / ((10 : ℤ) : ℚ)⌉ else 1
              by_cases hn0 : 0 < fr.length
              · rw [if_pos hn0, if_pos hn0]
                exact fdiv_eq_ceil fr.length 10 (by norm_num)
              · rw [if_neg hn0, if_neg hn0]

/-- C9 counterexample: page count of an empty DPD detail set is 1, while
the ceiling formula gives 0. -/
theorem C9_counterexample :
    ((api_dpd_bucket_details c5fp c9dp "0-30".toList []).map fun r =>
        (r.pagination.total_records, r.pagination.total_pages)) = .ok (0, 1) ∧
      (⌈(0 : ℚ) / 20⌉ : ℤ) = 0 :=
  ⟨by decide, by norm_num⟩

/-- C9 witness: the amended theorem applied to the empty DPD detail set and
the empty disbursal summary, whose page counts are both 1. -/
theorem C9_witness :
    ((api_dpd_bucket_details c5fp c9dp "0-30".toList []).map fun r =>
        r.pagination.total_pages) = .ok 1 ∧
      ((api_disbursal_summary c5disp []).map fun r =>
        r.pagination.total_pages) = .ok 1 := by
  cases hk : api_dpd_bucket_details c5fp c9dp "0-30".toList [] with
  | error e =>
    have hok : (api_dpd_bucket_details c5fp c9dp "0-30".toList []).isOk = true := by decide
    rw [hk] at hok
    simp [Except.isOk, Except.toBool] at hok
  | ok res =>
    have h1 := C9_total_pages.2.1 c5fp c9dp "0-30".toList [] res hk (by decide)
    have htr : ((api_dpd_bucket_details c5fp c9dp "0-30".toList []).map fun r =>
        r.pagination.total_records) = .ok 0 := by decide
    rw [hk] at htr
    simp only [Except.map] at htr
    rw [Except.ok.inj htr] at h1
    simp only [Nat.lt_irrefl, if_false] at h1
    cases hd : api_disbursal_summary c5disp [] with
    | error e =>
      have hokd : (api_disbursal_summary c5disp []).isOk = true := by decide
      rw [hd] at hokd
      simp [Except.isOk, Except.toBool] at hokd
    | ok resd =>
      have h2 := C9_total_pages.2.2 c5disp [] resd hd
      have htrd : ((api_disbursal_summary c5disp []).map fun r =>
          r.pagination.total_records) = .ok 0 := by decide
      rw [hd] at htrd
      simp only [Except.map] at htrd
      rw [Except.ok.inj htrd] at h2
      simp only [Nat.lt_irrefl, if_false] at h2
      refine ⟨?_, ?_⟩
      · simp only [Except.map]
        exact congrArg Except.ok h1
      · simp only [Except.map]
        exact congrArg Except.ok h2

end Blinkr
